import Mathlib

/-!
# Verification of the KSeF invoice pipeline

A shallow embedding of the core of the `ksef-ai-compliance` repository
(`src/scripts/python/generate_invoices.py`, `invoice_pdf_to_ksef_xml.py`,
`ksef_xml_converter.py`) together with theorems settling the frozen claims.

Modelling conventions:
* Python floats holding monetary amounts are modelled as exact rationals
  (`ℚ`); the Python `round(x, 2)` call is modelled as round-half-to-even at two
  decimal places on the exact value.
* Python dicts are modelled as association lists (`Dict`), preserving the
  lookup/update/default-`get` semantics used by the code.
* the Python `re` search/findall calls are modelled by a small backtracking
  regular-expression engine (leftmost search, left-biased alternation,
  greedy repetition, capture groups) over `List Char`, with the individual
  patterns of the source transcribed into its syntax.
* Ambient process state read by the code (`datetime.now()`, the logging
  correlation id, environment variables) is gathered into a `World` record
  that is threaded explicitly; file writes and XSD-validation calls are
  recorded as explicit effect values.
-/

namespace Ksef

/-! ## Exact decimal arithmetic (model of Python `round(x, 2)` and `str(float)`) -/

/-- Round-half-to-even of a rational to an integer, the rounding used by
the Python builtin `round`. -/
def roundHE (x : ℚ) : ℤ :=
  let f : ℤ := ⌊x⌋
  let r : ℚ := x - f
  if r < 1/2 then f
  else if 1/2 < r then f + 1
  else if f % 2 = 0 then f else f + 1

/-- Model of Python `round(x, 2)`: round-half-to-even at two decimal places. -/
def round2 (x : ℚ) : ℚ := (roundHE (100 * x) : ℚ) / 100

/-- A rational that is a whole number of hundredths (an exact two-decimal
monetary amount). -/
def IsCents (q : ℚ) : Prop := ∃ n : ℤ, q = (n : ℚ) / 100

theorem roundHE_intCast (n : ℤ) : roundHE (n : ℚ) = n := by
  unfold roundHE
  simp

theorem isCents_round2 (x : ℚ) : IsCents (round2 x) :=
  ⟨roundHE (100 * x), rfl⟩

theorem round2_eq_self {q : ℚ} (h : IsCents q) : round2 q = q := by
  obtain ⟨n, rfl⟩ := h
  unfold round2
  have h100 : (100 : ℚ) * ((n : ℚ) / 100) = (n : ℚ) := by ring
  rw [h100, roundHE_intCast]

theorem IsCents.add {p q : ℚ} (hp : IsCents p) (hq : IsCents q) :
    IsCents (p + q) := by
  obtain ⟨m, rfl⟩ := hp
  obtain ⟨n, rfl⟩ := hq
  exact ⟨m + n, by push_cast; ring⟩

theorem IsCents.natMul {p : ℚ} (hp : IsCents p) (k : ℕ) :
    IsCents (p * (k : ℚ)) := by
  obtain ⟨m, rfl⟩ := hp
  exact ⟨m * k, by push_cast; ring⟩

theorem isCents_zero : IsCents 0 := ⟨0, by norm_num⟩

/-- Python `str(x)` for a float `x` that holds an exact two-decimal value,
given as an integer number of cents: the shortest decimal representation,
i.e. trailing zeros of the fractional part are dropped, but at least one
fractional digit is always printed (`str(100.0) = "100.0"`). -/
def pyFloatStrCents (c : ℤ) : String :=
  let n := c / 100
  let r := c % 100
  if r = 0 then toString n ++ ".0"
  else if r % 10 = 0 then toString n ++ "." ++ toString (r / 10)
  else if r < 10 then toString n ++ ".0" ++ toString r
  else toString n ++ "." ++ toString r

/-- Python `str` of a (two-decimal, nonnegative) float value. -/
def pyFloatStr (q : ℚ) : String := pyFloatStrCents ⌊q * 100⌋

/-! ## The line-item derivation of the generator
(`InvoiceGenerator.generate_positions`, `generate_invoices.py` lines 169-204) -/

/-- The six monetary locals computed for one position in
`generate_positions`.  `x` is the raw draw `random.uniform(price_net_min,
price_net_max)`, `quantity` the draw `random.randint(min_qty, max_qty)`
(always an integer), `tax_rate` the configured integer rate. -/
structure PositionVals where
  price_net : ℚ
  price_tax : ℚ
  price_gross : ℚ
  total_price_net : ℚ
  total_price_tax : ℚ
  total_price_gross : ℚ
deriving Repr

/-- The `generate_positions` body for one line item (lines 173-183):
```
price_net = round(random.uniform(..), 2)
price_tax = round(price_net * tax_rate / 100, 2)
price_gross = round(price_net + price_tax, 2)
total_price_net = round(price_net * quantity, 2)
total_price_tax = round(price_tax * quantity, 2)
total_price_gross = round(price_gross * quantity, 2)
``` -/
def positionVals (x : ℚ) (quantity : ℕ) (tax_rate : ℤ) : PositionVals :=
  let price_net := round2 x
  let price_tax := round2 (price_net * tax_rate / 100)
  let price_gross := round2 (price_net + price_tax)
  { price_net := price_net
    price_tax := price_tax
    price_gross := price_gross
    total_price_net := round2 (price_net * quantity)
    total_price_tax := round2 (price_tax * quantity)
    total_price_gross := round2 (price_gross * quantity) }

theorem positionVals_cents (x : ℚ) (q : ℕ) (r : ℤ) :
    IsCents (positionVals x q r).price_net ∧
    IsCents (positionVals x q r).price_tax ∧
    IsCents (positionVals x q r).price_gross ∧
    IsCents (positionVals x q r).total_price_net ∧
    IsCents (positionVals x q r).total_price_tax ∧
    IsCents (positionVals x q r).total_price_gross := by
  refine ⟨?_, ?_, ?_, ?_, ?_, ?_⟩ <;> exact isCents_round2 _

/-- The rounded per-unit gross is exact: since `price_net` and `price_tax`
are both exact two-decimal amounts, `round(price_net + price_tax, 2)` is
the plain sum. -/
theorem positionVals_gross_eq (x : ℚ) (q : ℕ) (r : ℤ) :
    (positionVals x q r).price_gross =
      (positionVals x q r).price_net + (positionVals x q r).price_tax := by
  show round2 (round2 x + round2 (round2 x * r / 100)) = _
  exact round2_eq_self ((isCents_round2 x).add (isCents_round2 _))

/-- Each line total is the exact product of the (two-decimal) unit value
with the integer quantity: the outer `round(..., 2)` is the identity. -/
theorem positionVals_totals_exact (x : ℚ) (q : ℕ) (r : ℤ) :
    (positionVals x q r).total_price_net =
        (positionVals x q r).price_net * q ∧
    (positionVals x q r).total_price_tax =
        (positionVals x q r).price_tax * q ∧
    (positionVals x q r).total_price_gross =
        (positionVals x q r).price_gross * q := by
  refine ⟨?_, ?_, ?_⟩ <;>
    exact round2_eq_self ((isCents_round2 _).natMul q)

/-- Line-level additivity: `total_price_gross = total_price_net +
total_price_tax`, exactly. -/
theorem positionVals_line_additive (x : ℚ) (q : ℕ) (r : ℤ) :
    (positionVals x q r).total_price_gross =
      (positionVals x q r).total_price_net +
        (positionVals x q r).total_price_tax := by
  obtain ⟨hn, ht, hg⟩ := positionVals_totals_exact x q r
  rw [hn, ht, hg, positionVals_gross_eq, add_mul]

/-! ## Python dicts as association lists -/

/-- A Python dict with string keys and string values, as used for invoice
records throughout the scripts. -/
def Dict := List (String × String)

/-- Lookup `d[k]` returning `none` for a missing key
(`d.get(k)` without default). -/
def dget? : Dict → String → Option String
  | [], _ => none
  | (k', v) :: rest, k => if k' = k then some v else dget? rest k

/-- Update `d[k] = v`: replace the value of an existing key, otherwise append. -/
def dset : Dict → String → String → Dict
  | [], k, v => [(k, v)]
  | (k', v') :: rest, k, v =>
      if k' = k then (k, v) :: rest else (k', v') :: dset rest k v

theorem dget?_dset_self (d : Dict) (k v : String) :
    dget? (dset d k v) k = some v := by
  induction d with
  | nil => simp [dset, dget?]
  | cons kv rest ih =>
      obtain ⟨k', v'⟩ := kv
      by_cases h : k' = k <;> simp [dset, dget?, h, ih]

theorem dget?_dset_ne (d : Dict) {k k' : String} (v : String) (h : k' ≠ k) :
    dget? (dset d k v) k' = dget? d k' := by
  have h' : ¬k = k' := fun hh => h hh.symm
  induction d with
  | nil => simp [dset, dget?, h']
  | cons kv rest ih =>
      obtain ⟨k₀, v₀⟩ := kv
      by_cases h₀ : k₀ = k
      · subst h₀
        have : ¬k₀ = k' := fun hh => h (hh ▸ rfl)
        simp [dset, dget?, this, h']
      · by_cases h₁ : k₀ = k'
        · subst h₁
          simp [dset, dget?, h₀, ih]
        · simp [dset, dget?, h₀, h₁, ih]

/-! ## The position dict built by `generate_positions`
(`generate_invoices.py` lines 185-201); every value is a Python `str`. -/

/-- The dict literal appended to `positions` for one line item.  `name` is
the product name and `qunit` the configured quantity unit. -/
def positionDict (name : String) (x : ℚ) (quantity : ℕ) (tax_rate : ℤ)
    (qunit : String) : Dict :=
  let v := positionVals x quantity tax_rate
  [("name", name),
   ("price_net", pyFloatStr v.price_net),
   ("quantity", pyFloatStr (quantity : ℚ)),
   ("total_price_gross", pyFloatStr v.total_price_gross),
   ("total_price_net", pyFloatStr v.total_price_net),
   ("additional_info", ""),
   ("quantity_unit", qunit),
   ("tax", toString tax_rate),
   ("price_gross", pyFloatStr v.price_gross),
   ("price_tax", pyFloatStr v.price_tax),
   ("total_price_tax", pyFloatStr v.total_price_tax),
   ("tax2", "0")]

/-! ## Invoice-level aggregation
(`InvoiceGenerator.generate_invoice`, lines 222-224 and 232/233/242) -/

/-- The three invoice-level aggregates: `sum` over the positions'
line totals, rounded to two places when stored on the invoice
(`str(round(price_net, 2))` etc.). -/
def invoiceTotals (ps : List PositionVals) : ℚ × ℚ × ℚ :=
  (round2 (ps.map (·.total_price_net)).sum,
   round2 (ps.map (·.total_price_tax)).sum,
   round2 (ps.map (·.total_price_gross)).sum)

theorem isCents_sum_totals (ps : List (ℚ × ℕ × ℤ)) :
    IsCents ((ps.map (fun a => (positionVals a.1 a.2.1 a.2.2).total_price_net)).sum) ∧
    IsCents ((ps.map (fun a => (positionVals a.1 a.2.1 a.2.2).total_price_tax)).sum) ∧
    IsCents ((ps.map (fun a => (positionVals a.1 a.2.1 a.2.2).total_price_gross)).sum) := by
  induction ps with
  | nil => exact ⟨isCents_zero, isCents_zero, isCents_zero⟩
  | cons a rest ih =>
      obtain ⟨ihn, iht, ihg⟩ := ih
      refine ⟨?_, ?_, ?_⟩ <;> simp only [List.map_cons, List.sum_cons]
      · exact (isCents_round2 _).add ihn
      · exact (isCents_round2 _).add iht
      · exact (isCents_round2 _).add ihg

theorem sum_totals_additive (ps : List (ℚ × ℕ × ℤ)) :
    (ps.map (fun a => (positionVals a.1 a.2.1 a.2.2).total_price_gross)).sum =
      (ps.map (fun a => (positionVals a.1 a.2.1 a.2.2).total_price_net)).sum +
      (ps.map (fun a => (positionVals a.1 a.2.1 a.2.2).total_price_tax)).sum := by
  induction ps with
  | nil => simp
  | cons a rest ih =>
      simp only [List.map_cons, List.sum_cons, ih,
        positionVals_line_additive a.1 a.2.1 a.2.2]
      ring

/-- Python `str` of a float holding an integer value prints a single trailing
zero after the decimal point. -/
theorem pyFloatStr_int (n : ℤ) : pyFloatStr (n : ℚ) = toString n ++ ".0" := by
  unfold pyFloatStr
  have hf : ⌊(n : ℚ) * 100⌋ = n * 100 := by
    rw [show ((n : ℚ) * 100) = ((n * 100 : ℤ) : ℚ) by push_cast; ring,
      Int.floor_intCast]
  rw [hf]
  unfold pyFloatStrCents
  have h1 : n * 100 / 100 = n := Int.mul_ediv_cancel n (by norm_num)
  have h2 : n * 100 % 100 = 0 := Int.mul_emod_left n 100
  simp [h1, h2]

/-- The concrete scenario of the spec: product price 100 (exact), tax rate
23, quantity 2. -/
theorem positionVals_100_2_23 :
    positionVals 100 2 23 =
      { price_net := 100, price_tax := 23, price_gross := 123,
        total_price_net := 200, total_price_tax := 46,
        total_price_gross := 246 } := by
  simp only [positionVals]
  have c1 : round2 (100 : ℚ) = 100 := round2_eq_self ⟨10000, by norm_num⟩
  rw [c1]
  rw [show (100 : ℚ) * ((23 : ℤ) : ℚ) / 100 = 23 by push_cast; ring]
  rw [round2_eq_self ⟨2300, by norm_num⟩]
  rw [show (100 : ℚ) + 23 = 123 by norm_num]
  rw [round2_eq_self ⟨12300, by norm_num⟩]
  rw [show (100 : ℚ) * ((2 : ℕ) : ℚ) = 200 by push_cast; ring]
  rw [show (23 : ℚ) * ((2 : ℕ) : ℚ) = 46 by push_cast; ring]
  rw [show (123 : ℚ) * ((2 : ℕ) : ℚ) = 246 by push_cast; ring]
  rw [round2_eq_self ⟨20000, by norm_num⟩]
  rw [round2_eq_self ⟨4600, by norm_num⟩]
  rw [round2_eq_self ⟨24600, by norm_num⟩]

theorem positionDict_100_2_23 :
    positionDict "A" 100 2 23 "szt" =
      [("name", "A"),
       ("price_net", "100.0"),
       ("quantity", "2.0"),
       ("total_price_gross", "246.0"),
       ("total_price_net", "200.0"),
       ("additional_info", ""),
       ("quantity_unit", "szt"),
       ("tax", "23"),
       ("price_gross", "123.0"),
       ("price_tax", "23.0"),
       ("total_price_tax", "46.0"),
       ("tax2", "0")] := by
  unfold positionDict
  rw [positionVals_100_2_23]
  have e100 : pyFloatStr (100 : ℚ) = "100.0" := by
    rw [show (100 : ℚ) = ((100 : ℤ) : ℚ) by norm_num, pyFloatStr_int]; rfl
  have e23 : pyFloatStr (23 : ℚ) = "23.0" := by
    rw [show (23 : ℚ) = ((23 : ℤ) : ℚ) by norm_num, pyFloatStr_int]; rfl
  have e123 : pyFloatStr (123 : ℚ) = "123.0" := by
    rw [show (123 : ℚ) = ((123 : ℤ) : ℚ) by norm_num, pyFloatStr_int]; rfl
  have e200 : pyFloatStr (200 : ℚ) = "200.0" := by
    rw [show (200 : ℚ) = ((200 : ℤ) : ℚ) by norm_num, pyFloatStr_int]; rfl
  have e46 : pyFloatStr (46 : ℚ) = "46.0" := by
    rw [show (46 : ℚ) = ((46 : ℤ) : ℚ) by norm_num, pyFloatStr_int]; rfl
  have e246 : pyFloatStr (246 : ℚ) = "246.0" := by
    rw [show (246 : ℚ) = ((246 : ℤ) : ℚ) by norm_num, pyFloatStr_int]; rfl
  have e2 : pyFloatStr ((2 : ℕ) : ℚ) = "2.0" := by
    rw [show ((2 : ℕ) : ℚ) = ((2 : ℤ) : ℚ) by norm_num, pyFloatStr_int]; rfl
  simp only [e100, e23, e123, e200, e46, e246, e2]
  rfl

/-- C1 (counterexample): in the concrete scenario of the claim (product
price 100, tax rate 23, quantity 2), the string field of the generated position
`price_net` is `"100.0"`, not `"100.00"` as the claim states — the
Python `str()` of the float drops the second trailing zero. -/
theorem C1_counterexample :
    dget? (positionDict "A" 100 2 23 "szt") "price_net" = some "100.0" ∧
    dget? (positionDict "A" 100 2 23 "szt") "price_net" ≠ some "100.00" := by
  rw [positionDict_100_2_23]
  exact ⟨rfl, by decide⟩

/-- C1 (amended): the derived monetary fields satisfy
`unit_tax = round(unit_net * rate / 100, 2)`,
`unit_gross = round(unit_net + unit_tax, 2)` and each line total
`= round(unit value * quantity, 2)`; in the concrete scenario
(price 100, rate 23, quantity 2) the string field values of the position are
the Python `str()` forms `"100.0"`, `"23.0"`, `"123.0"`, `"200.0"`,
`"46.0"`, `"246.0"` (one decimal place, trailing zeros dropped). -/
theorem C1_line_item_derivation :
    (∀ (x : ℚ) (q : ℕ) (r : ℤ),
      (positionVals x q r).price_tax =
          round2 ((positionVals x q r).price_net * r / 100) ∧
      (positionVals x q r).price_gross =
          round2 ((positionVals x q r).price_net +
            (positionVals x q r).price_tax) ∧
      (positionVals x q r).total_price_net =
          round2 ((positionVals x q r).price_net * q) ∧
      (positionVals x q r).total_price_tax =
          round2 ((positionVals x q r).price_tax * q) ∧
      (positionVals x q r).total_price_gross =
          round2 ((positionVals x q r).price_gross * q)) ∧
    (dget? (positionDict "A" 100 2 23 "szt") "price_net" = some "100.0" ∧
     dget? (positionDict "A" 100 2 23 "szt") "price_tax" = some "23.0" ∧
     dget? (positionDict "A" 100 2 23 "szt") "price_gross" = some "123.0" ∧
     dget? (positionDict "A" 100 2 23 "szt") "total_price_net" = some "200.0" ∧
     dget? (positionDict "A" 100 2 23 "szt") "total_price_tax" = some "46.0" ∧
     dget? (positionDict "A" 100 2 23 "szt") "total_price_gross" = some "246.0") := by
  constructor
  · intro x q r
    exact ⟨rfl, rfl, rfl, rfl, rfl⟩
  · rw [positionDict_100_2_23]
    exact ⟨rfl, rfl, rfl, rfl, rfl, rfl⟩

/-- C2: for every generated invoice (modelled as any list of positions
produced by the per-line derivation of the generator), each invoice-level
aggregate equals the sum of the corresponding position-level totals
exactly, and `gross = net + tax` holds exactly, hence within the 0.01
tolerance. -/
theorem C2_invoice_aggregates (ps : List (ℚ × ℕ × ℤ)) :
    (invoiceTotals (ps.map fun a => positionVals a.1 a.2.1 a.2.2)).1 =
      ((ps.map fun a => positionVals a.1 a.2.1 a.2.2).map
        (·.total_price_net)).sum ∧
    (invoiceTotals (ps.map fun a => positionVals a.1 a.2.1 a.2.2)).2.1 =
      ((ps.map fun a => positionVals a.1 a.2.1 a.2.2).map
        (·.total_price_tax)).sum ∧
    (invoiceTotals (ps.map fun a => positionVals a.1 a.2.1 a.2.2)).2.2 =
      ((ps.map fun a => positionVals a.1 a.2.1 a.2.2).map
        (·.total_price_gross)).sum ∧
    (invoiceTotals (ps.map fun a => positionVals a.1 a.2.1 a.2.2)).2.2 =
      (invoiceTotals (ps.map fun a => positionVals a.1 a.2.1 a.2.2)).1 +
      (invoiceTotals (ps.map fun a => positionVals a.1 a.2.1 a.2.2)).2.1 ∧
    |(invoiceTotals (ps.map fun a => positionVals a.1 a.2.1 a.2.2)).2.2 -
      ((invoiceTotals (ps.map fun a => positionVals a.1 a.2.1 a.2.2)).1 +
       (invoiceTotals (ps.map fun a => positionVals a.1 a.2.1 a.2.2)).2.1)| ≤
      1/100 := by
  obtain ⟨hn, ht, hg⟩ := isCents_sum_totals ps
  have en :
      (invoiceTotals (ps.map fun a => positionVals a.1 a.2.1 a.2.2)).1 =
        ((ps.map fun a => positionVals a.1 a.2.1 a.2.2).map
          (·.total_price_net)).sum := by
    simp only [invoiceTotals, List.map_map]
    exact round2_eq_self hn
  have et :
      (invoiceTotals (ps.map fun a => positionVals a.1 a.2.1 a.2.2)).2.1 =
        ((ps.map fun a => positionVals a.1 a.2.1 a.2.2).map
          (·.total_price_tax)).sum := by
    simp only [invoiceTotals, List.map_map]
    exact round2_eq_self ht
  have eg :
      (invoiceTotals (ps.map fun a => positionVals a.1 a.2.1 a.2.2)).2.2 =
        ((ps.map fun a => positionVals a.1 a.2.1 a.2.2).map
          (·.total_price_gross)).sum := by
    simp only [invoiceTotals, List.map_map]
    exact round2_eq_self hg
  have eadd :
      (invoiceTotals (ps.map fun a => positionVals a.1 a.2.1 a.2.2)).2.2 =
        (invoiceTotals (ps.map fun a => positionVals a.1 a.2.1 a.2.2)).1 +
        (invoiceTotals (ps.map fun a => positionVals a.1 a.2.1 a.2.2)).2.1 := by
    rw [en, et, eg]
    simp only [List.map_map]
    exact sum_totals_additive ps
  refine ⟨en, et, eg, eadd, ?_⟩
  rw [eadd]
  simp

/-! ## A small backtracking regular-expression engine

Model of the Python `re` calls used by `parse_invoice_with_rules`:
leftmost search, left-biased alternation, greedy repetition and capture
groups, over `List Char`.  The `ci` flag models `re.IGNORECASE`
(ASCII case folding). -/

/-- the Python `\s` set (ASCII whitespace). -/
def pySpace (c : Char) : Bool :=
  c = ' ' || c = '\t' || c = '\n' || c = '\r' || c = '\x0b' || c = '\x0c'

/-- One alternative inside a character class. -/
inductive CAtom where
  | lit (c : Char)
  | range (lo hi : Char)
  | digit
  | space
deriving Repr

def catomMatch (ci : Bool) (a : CAtom) (c : Char) : Bool :=
  match a with
  | .lit l => if ci then l.toLower = c.toLower else l = c
  | .range lo hi =>
      (lo ≤ c && c ≤ hi) ||
      (ci && ((lo ≤ c.toLower && c.toLower ≤ hi) ||
              (lo ≤ c.toUpper && c.toUpper ≤ hi)))
  | .digit => c.isDigit
  | .space => pySpace c

/-- Regular-expression syntax: character classes (possibly negated),
concatenation, left-biased alternation, greedy Kleene star and numbered
capture groups. -/
inductive Re where
  | eps
  | cls (neg : Bool) (atoms : List CAtom)
  | seq (a b : Re)
  | alt (a b : Re)
  | star (a : Re)
  | grp (i : Nat) (a : Re)
deriving Repr

def Re.chr (c : Char) : Re := .cls false [.lit c]

/-- A literal string. -/
def Re.rstr (s : String) : Re := (s.data.map Re.chr).foldr Re.seq Re.eps

def Re.cat (rs : List Re) : Re := rs.foldr Re.seq Re.eps

/-- Regex `r?` (greedy). -/
def Re.opt (r : Re) : Re := .alt r .eps

/-- Regex `r+` (greedy). -/
def Re.plus (r : Re) : Re := .seq r (.star r)

/-- Regex `r` repeated exactly n times. -/
def Re.repN (n : Nat) (r : Re) : Re := Re.cat (List.replicate n r)

def Re.anyOf (s : String) : Re := .cls false (s.data.map .lit)

def Re.noneOf (s : String) : Re := .cls true (s.data.map .lit)

/-- Regex `\d`. -/
def Re.d : Re := .cls false [.digit]

/-- Regex `\s`. -/
def Re.sp : Re := .cls false [.space]

def clsMatch (ci neg : Bool) (atoms : List CAtom) (c : Char) : Bool :=
  let m := atoms.any (fun a => catomMatch ci a c)
  if neg then !m else m

/-- Captured groups: most recent capture first. -/
abbrev Captures := List (Nat × List Char)

def reSize : Re → Nat
  | .eps => 1
  | .cls _ _ => 1
  | .seq a b => reSize a + reSize b + 1
  | .alt a b => reSize a + reSize b + 1
  | .star a => reSize a + 1
  | .grp _ a => reSize a + 1

/-- Largest group number occurring in a pattern; models the Python
`len(match.groups())` value for the patterns used here (group numbers are
consecutive from 1). -/
def reMaxGroup : Re → Nat
  | .eps => 0
  | .cls _ _ => 0
  | .seq a b => max (reMaxGroup a) (reMaxGroup b)
  | .alt a b => max (reMaxGroup a) (reMaxGroup b)
  | .star a => reMaxGroup a
  | .grp i a => max i (reMaxGroup a)

/-- Continuation-passing backtracking matcher.  The fuel bounds the depth
of the search and is chosen large enough for every use below; alternation
prefers its left branch, star prefers consuming (greedy), star bodies must
consume at least one character per iteration. -/
def reM (ci : Bool) : Nat → Re → List Char → Captures →
    (List Char → Captures → Option (List Char × Captures)) →
    Option (List Char × Captures)
  | 0, _, _, _, _ => none
  | fuel + 1, r, s, g, k =>
    match r with
    | .eps => k s g
    | .cls neg atoms =>
        match s with
        | [] => none
        | c :: rest => if clsMatch ci neg atoms c then k rest g else none
    | .seq a b => reM ci fuel a s g (fun s' g' => reM ci fuel b s' g' k)
    | .alt a b =>
        match reM ci fuel a s g k with
        | some res => some res
        | none => reM ci fuel b s g k
    | .grp i a =>
        reM ci fuel a s g (fun s' g' =>
          k s' ((i, s.take (s.length - s'.length)) :: g'))
    | .star a =>
        match reM ci fuel a s g (fun s' g' =>
            if s'.length < s.length then reM ci fuel (.star a) s' g' k
            else none) with
        | some res => some res
        | none => k s g

def reFuel (r : Re) (n : Nat) : Nat := (reSize r + 2) * (n + 2)

/-- Attempt a match anchored at the start of `s` (Python `re.match`);
returns the length of the consumed prefix and the captures. -/
def reMatchAt (ci : Bool) (r : Re) (s : List Char) : Option (Nat × Captures) :=
  match reM ci (reFuel r s.length) r s [] (fun s' g' => some (s', g')) with
  | none => none
  | some (rest, g) => some (s.length - rest.length, g)

/-- Leftmost search (Python `re.search`): first position where the
pattern matches; returns (start, length, captures). -/
def reSearchFrom (ci : Bool) (r : Re) : List Char → Nat →
    Option (Nat × Nat × Captures)
  | s, pos =>
    match reMatchAt ci r s with
    | some (len, g) => some (pos, len, g)
    | none =>
      match s with
      | [] => none
      | _ :: rest => reSearchFrom ci r rest (pos + 1)

def reSearch (ci : Bool) (r : Re) (s : List Char) :
    Option (Nat × Nat × Captures) :=
  reSearchFrom ci r s 0

def capGet (g : Captures) (i : Nat) : Option String :=
  match List.find? (fun p => p.1 = i) g with
  | some p => some (String.mk p.2)
  | none => none

/-- Python `match.group(1)` of a `re.search`, or `none` when there is no match. -/
def reSearchG1 (ci : Bool) (r : Re) (s : List Char) : Option String :=
  match reSearch ci r s with
  | some (_, _, g) => some ((capGet g 1).getD "")
  | none => none

def reSearchFound (ci : Bool) (r : Re) (s : List Char) : Bool :=
  (reSearch ci r s).isSome

/-- Python `re.findall`: non-overlapping leftmost matches, scanning on
from the end of each match. -/
def reFindallAux (ci : Bool) (r : Re) : Nat → List Char → List Captures
  | 0, _ => []
  | fuel + 1, s =>
    match reSearch ci r s with
    | none => []
    | some (start, len, g) =>
        g :: reFindallAux ci r fuel (s.drop (start + max len 1))

def reFindallCaps (ci : Bool) (r : Re) (s : List Char) : List Captures :=
  reFindallAux ci r (s.length + 1) s

/-- Python `re.findall` for a pattern with a single group: the list of group-1
captures. -/
def reFindall1 (ci : Bool) (r : Re) (s : List Char) : List String :=
  (reFindallCaps ci r s).map (fun g => (capGet g 1).getD "")

/-- Python `re.findall` for a pattern with two groups: the list of
(group 1, group 2) pairs. -/
def reFindall2 (ci : Bool) (r : Re) (s : List Char) :
    List (String × String) :=
  (reFindallCaps ci r s).map
    (fun g => ((capGet g 1).getD "", (capGet g 2).getD ""))

/-! ## Python string helpers used by the cascade -/

/-- Python `s.strip()`. -/
def pyStrip (s : String) : String :=
  String.mk (((s.data.dropWhile (fun c => pySpace c)).reverse.dropWhile
    (fun c => pySpace c)).reverse)

/-- Python `s.rstrip(c)` for a single character. -/
def pyRstrip (c : Char) (s : String) : String :=
  String.mk ((s.data.reverse.dropWhile (fun c' => c' = c)).reverse)

/-- Python `s.replace(c, ...)` with the empty replacement. -/
def pyRemove (c : Char) (s : String) : String :=
  String.mk (s.data.filter (fun c' => c' ≠ c))

/-- Python `re.sub` deleting dashes and whitespace (used to strip NIP separators). -/
def subDashSpace (s : String) : String :=
  String.mk (s.data.filter (fun c => !(c = '-' || pySpace c)))

def listContainsSub (sub l : List Char) : Bool :=
  l.tails.any (fun t => sub.isPrefixOf t)

/-- Python `sub in s`. -/
def pyContains (sub s : String) : Bool := listContainsSub sub.data s.data

/-- Python `s.zfill(2)`. -/
def pyZfill2 (s : String) : String :=
  if s.data.length < 2 then
    String.mk (List.replicate (2 - s.data.length) '0' ++ s.data)
  else s

def splitAnyAux (seps : List Char) : List Char → List Char → List String
  | [], acc => [String.mk acc.reverse]
  | c :: rest, acc =>
      if seps.contains c then
        String.mk acc.reverse :: splitAnyAux seps rest []
      else splitAnyAux seps rest (c :: acc)

/-- Python `re.split` for a class of single separator characters. -/
def pySplitAny (seps : List Char) (s : String) : List String :=
  splitAnyAux seps s.data []

/-- Python `re.match(pattern, s)` truthiness: anchored prefix match. -/
def reMatchesAtStart (ci : Bool) (r : Re) (s : String) : Bool :=
  (reMatchAt ci r s.data).isSome

def pyLower (s : String) : String := String.mk (s.data.map Char.toLower)

def findFirst {α β : Type} (f : α → Option β) : List α → Option β
  | [] => none
  | a :: rest =>
      match f a with
      | some b => some b
      | none => findFirst f rest

/-! ## The rule cascade (`KSeFXMLConverter.parse_invoice_with_rules`,
`invoice_pdf_to_ksef_xml.py` lines 327-540), pattern by pattern -/

/-- Class `[:\s]`. -/
def colonSp : Re := .cls false [.lit ':', .space]

/-- Class `[-\s]`. -/
def dashSp : Re := .cls false [.lit '-', .space]

/-- the separator class of dash, slash, dot. -/
def dmySep : Re := .cls false [.lit '-', .lit '/', .lit '.']

/-- Class `[,\s]`. -/
def commaSp : Re := .cls false [.lit ',', .space]

/-- Class `[/\-]`. -/
def slashDash : Re := .cls false [.lit '/', .lit '-']

/-- Class `[A-Za-z]`. -/
def alphaCls : Re := .cls false [.range 'A' 'Z', .range 'a' 'z']

/-- Class `[\d,\s]`. -/
def digitCommaSp : Re := .cls false [.digit, .lit ',', .space]

/-- Class `[A-Z0-9/\-]`. -/
def upperNumCls : Re :=
  .cls false [.range 'A' 'Z', .range '0' '9', .lit '/', .lit '-']

def polishUpperAtoms : List CAtom :=
  [.range 'A' 'Z', .lit 'Ą', .lit 'Ć', .lit 'Ę', .lit 'Ł', .lit 'Ń',
   .lit 'Ó', .lit 'Ś', .lit 'Ź', .lit 'Ż']

def polishLowerAtoms : List CAtom :=
  [.range 'a' 'z', .lit 'ą', .lit 'ć', .lit 'ę', .lit 'ł', .lit 'ń',
   .lit 'ó', .lit 'ś', .lit 'ź', .lit 'ż']

/-- Pattern 1 (lines 362-364):
`NIP[:\s]*(\d{3}[-\s]?\d{3}[-\s]?\d{2}[-\s]?\d{2}|\d{10})`. -/
def nipPattern : Re :=
  Re.cat [Re.rstr "NIP", .star colonSp,
    .grp 1 (.alt
      (Re.cat [Re.repN 3 Re.d, Re.opt dashSp, Re.repN 3 Re.d, Re.opt dashSp,
               Re.repN 2 Re.d, Re.opt dashSp, Re.repN 2 Re.d])
      (Re.repN 10 Re.d))]

/-- Pattern 1 step (lines 365-370): first NIP is the seller, second the
buyer, separators stripped. -/
def nipStep (t : String) (d : Dict) : Dict :=
  match reFindall1 true nipPattern t.data with
  | m0 :: m1 :: _ =>
      dset (dset d "seller_tax_no" (subDashSpace m0))
        "buyer_tax_no" (subDashSpace m1)
  | [m0] => dset d "seller_tax_no" (subDashSpace m0)
  | [] => d

/-- Pattern 2 (lines 374-380): the five invoice-number patterns, in their
priority order. -/
def invoiceNumPatterns : List Re :=
  [Re.cat [Re.rstr "INVOICE", .star Re.sp, Re.chr '#', .star Re.sp,
     .grp 1 (Re.plus Re.d)],
   Re.cat [Re.rstr "Invoice", Re.plus Re.sp,
     .alt (Re.rstr "Number") (Re.cat [Re.rstr "No", Re.opt (Re.chr '.')]),
     .star colonSp, .grp 1 (Re.plus Re.d)],
   Re.cat [Re.rstr "Faktura", Re.plus Re.sp,
     Re.opt (.alt (Re.cat [Re.rstr "Nr", Re.opt (Re.chr '.')])
       (.alt (Re.rstr "numer") (Re.rstr "VAT"))),
     .star Re.sp, .star colonSp, .grp 1 (Re.plus upperNumCls)],
   Re.cat [.alt (Re.rstr "FA") (Re.rstr "FV"), slashDash,
     .grp 1 (Re.cat [Re.plus Re.d, slashDash, Re.plus Re.d, slashDash,
       Re.plus Re.d])],
   Re.cat [Re.rstr "Numer", Re.plus Re.sp, Re.rstr "faktury", .star colonSp,
     .grp 1 (Re.plus upperNumCls)]]

/-- Pattern 2 step (lines 381-384): first pattern that matches wins;
`group(1)` when the pattern has one group, else the whole match. -/
def numberStepValue (t : List Char) : Option String :=
  findFirst (fun p =>
    match reSearch true p t with
    | some (st, len, g) =>
        if reMaxGroup p = 1 then some ((capGet g 1).getD "")
        else some (String.mk ((t.drop st).take len))
    | none => none) invoiceNumPatterns

def numberStep (t : String) (d : Dict) : Dict :=
  match numberStepValue t.data with
  | some v => dset d "number" v
  | none => d

/-- two digits, separator, two digits, separator, four digits (both a
date alternative and the `re.match` check at line 415); separators are
dash, slash or dot. -/
def dottedDate : Re :=
  Re.cat [Re.repN 2 Re.d, dmySep, Re.repN 2 Re.d, dmySep, Re.repN 4 Re.d]

/-- Pattern `\d{4}-\d{2}-\d{2}`. -/
def isoDate : Re :=
  Re.cat [Re.repN 4 Re.d, Re.chr '-', Re.repN 2 Re.d, Re.chr '-',
    Re.repN 2 Re.d]

/-- The English-date tail `(\d{1,2})\s+([A-Za-z]+)[,\s]+(\d{4})`. -/
def engDateTail : Re :=
  Re.cat [.grp 1 (Re.cat [Re.d, Re.opt Re.d]), Re.plus Re.sp,
    .grp 2 (Re.plus alphaCls), Re.plus commaSp, .grp 3 (Re.repN 4 Re.d)]

/-- Pattern `DATE[:\s]*` followed by the English-date tail (line 390). -/
def dateP1 : Re := Re.cat [Re.rstr "DATE", .star colonSp, engDateTail]

/-- Pattern `(?:Invoice\s+)?Date[:\s]*` followed by the English-date tail
(line 391). -/
def dateP2 : Re :=
  Re.cat [Re.opt (Re.cat [Re.rstr "Invoice", Re.plus Re.sp]),
    Re.rstr "Date", .star colonSp, engDateTail]

/-- Pattern `Data\s+wystawienia[:\s]*` with an ISO date (line 392). -/
def dateP3 : Re :=
  Re.cat [Re.rstr "Data", Re.plus Re.sp, Re.rstr "wystawienia",
    .star colonSp, .grp 1 isoDate]

/-- Pattern `Data\s+wystawienia[:\s]*` with a dotted date (line 393). -/
def dateP4 : Re :=
  Re.cat [Re.rstr "Data", Re.plus Re.sp, Re.rstr "wystawienia",
    .star colonSp, .grp 1 dottedDate]

/-- Pattern `Data\s+sprzedaży[:\s]*` with an ISO date (line 394). -/
def dateP5 : Re :=
  Re.cat [Re.rstr "Data", Re.plus Re.sp, Re.rstr "sprzedaży",
    .star colonSp, .grp 1 isoDate]

/-- Pattern `Data\s+sprzedaży[:\s]*` with a dotted date (line 395). -/
def dateP6 : Re :=
  Re.cat [Re.rstr "Data", Re.plus Re.sp, Re.rstr "sprzedaży",
    .star colonSp, .grp 1 dottedDate]

/-- Pattern 3 (lines 389-396): the six date patterns, in priority order. -/
def datePatterns : List Re := [dateP1, dateP2, dateP3, dateP4, dateP5, dateP6]

/-- The month-name table of lines 398-402. -/
def monthNames : Dict :=
  [("january", "01"), ("february", "02"), ("march", "03"), ("april", "04"),
   ("may", "05"), ("june", "06"), ("july", "07"), ("august", "08"),
   ("september", "09"), ("october", "10"), ("november", "11"),
   ("december", "12")]

/-- Pattern 3 step (lines 404-419): first matching pattern wins; an
English match (3 groups) is rebuilt as `YYYY-MM-DD` through the month
table, a numeric `DD.MM.YYYY`-shaped match is reordered, anything else is
kept as captured. -/
def dateStepValue (t : List Char) : Option String :=
  findFirst (fun p =>
    match reSearch true p t with
    | some (_, _, g) =>
        if reMaxGroup p = 3 then
          let day := (capGet g 1).getD ""
          let monthName := (capGet g 2).getD ""
          let year := (capGet g 3).getD ""
          let month := (dget? monthNames (pyLower monthName)).getD "01"
          some (year ++ "-" ++ month ++ "-" ++ pyZfill2 day)
        else
          let ds := (capGet g 1).getD ""
          if reMatchesAtStart false dottedDate ds then
            let parts := pySplitAny ['-', '/', '.'] ds
            some ((parts.getD 2 "") ++ "-" ++ (parts.getD 1 "") ++ "-" ++
              (parts.getD 0 ""))
          else some ds
    | none => none) datePatterns

def dateStep (t : String) (d : Dict) : Dict :=
  match dateStepValue t.data with
  | some ds => dset d "issue_date" ds
  | none => d

/-- Pattern `[\d,\s]+(?:\.\d{2})?`, the amount capture of the English patterns. -/
def amtCore : Re :=
  Re.cat [Re.plus digitCommaSp,
    Re.opt (Re.cat [Re.chr '.', Re.repN 2 Re.d])]

/-- Pattern `(?:Wartość\s+)?`. -/
def wartoscOpt : Re := Re.opt (Re.cat [Re.rstr "Wartość", Re.plus Re.sp])

/-- Pattern `SUBTOTAL[:\s]*(...)\s*zł` (line 425). -/
def subtotalPattern : Re :=
  Re.cat [Re.rstr "SUBTOTAL", .star colonSp, .grp 1 amtCore, .star Re.sp,
    Re.rstr "zł"]

/-- Pattern `VAT\s+\d+%[:\s]*(?:EUR\s+)?(...)\s*zł` (line 426). -/
def vatEngPattern : Re :=
  Re.cat [Re.rstr "VAT", Re.plus Re.sp, Re.plus Re.d, Re.chr '%',
    .star colonSp, Re.opt (Re.cat [Re.rstr "EUR", Re.plus Re.sp]),
    .grp 1 amtCore, .star Re.sp, Re.rstr "zł"]

/-- Pattern `TOTAL[:\s]*(...)\s*zł` (line 427). -/
def totalEngPattern : Re :=
  Re.cat [Re.rstr "TOTAL", .star colonSp, .grp 1 amtCore, .star Re.sp,
    Re.rstr "zł"]

/-- Pattern `(?:Wartość\s+)?[Nn]etto[:\s]*([\d,\s]+)` (line 429). -/
def nettoPattern : Re :=
  Re.cat [wartoscOpt, .cls false [.lit 'N', .lit 'n'], Re.rstr "etto",
    .star colonSp, .grp 1 (Re.plus digitCommaSp)]

/-- Pattern `(?:Wartość\s+)?VAT[:\s]*([\d,\s]+)` (line 430). -/
def vatPlPattern : Re :=
  Re.cat [wartoscOpt, Re.rstr "VAT", .star colonSp,
    .grp 1 (Re.plus digitCommaSp)]

/-- Pattern `(?:Wartość\s+)?[Bb]rutto[:\s]*([\d,\s]+)` (line 431). -/
def bruttoPattern : Re :=
  Re.cat [wartoscOpt, .cls false [.lit 'B', .lit 'b'], Re.rstr "rutto",
    .star colonSp, .grp 1 (Re.plus digitCommaSp)]

/-- Pattern `Razem[:\s]*([\d,\s]+)` (line 432). -/
def razemPattern : Re :=
  Re.cat [Re.rstr "Razem", .star colonSp, .grp 1 (Re.plus digitCommaSp)]

/-- Pattern `Do\s+zapłaty[:\s]*([\d,\s]+)` (line 433). -/
def doZaplatyPattern : Re :=
  Re.cat [Re.rstr "Do", Re.plus Re.sp, Re.rstr "zapłaty", .star colonSp,
    .grp 1 (Re.plus digitCommaSp)]

/-- Pattern 4 (lines 423-434): the (pattern, field) list for monetary
totals, in source order. -/
def amountPatterns : List (Re × String) :=
  [(subtotalPattern, "price_net"),
   (vatEngPattern, "price_tax"),
   (totalEngPattern, "price_gross"),
   (nettoPattern, "price_net"),
   (vatPlPattern, "price_tax"),
   (bruttoPattern, "price_gross"),
   (razemPattern, "price_gross"),
   (doZaplatyPattern, "price_gross")]

/-- Amount normalization (lines 440-450): strip spaces and commas, then
fix up the decimal point (a final two-digit group after `.` is kept,
otherwise dots are treated as thousands separators and `.00` appended). -/
def pyNormalizeAmount (m : String) : String :=
  let amount := pyRemove ',' (pyRemove ' ' m)
  if amount.data.contains '.' then
    let parts := pySplitAny ['.'] amount
    if (parts.getLastD "").data.length = 2 then amount
    else pyRemove '.' amount ++ ".00"
  else amount ++ ".00"

/-- One iteration of the Pattern 4 loop (lines 436-451): if the pattern
has any match, overwrite its field with the normalized *last* match. -/
def amountApply (t : String) (d : Dict) (pf : Re × String) : Dict :=
  match reFindall1 true pf.1 t.data with
  | [] => d
  | m :: rest =>
      dset d pf.2 (pyNormalizeAmount (List.getLastD (m :: rest) ""))

/-- Pattern 4 step: the loop over `amountPatterns` in order. -/
def amountsStep (t : String) (d : Dict) : Dict :=
  amountPatterns.foldl (amountApply t) d

/-- Folding the amount rule over a list of patterns for one field,
starting from a previous value: every matching pattern overrides the
accumulator with its normalized last match. -/
def lastAmountValueFrom (t : String) (acc : Option String) (ps : List Re) :
    Option String :=
  ps.foldl (fun acc p =>
    match reFindall1 true p t.data with
    | [] => acc
    | m :: rest => some (pyNormalizeAmount (List.getLastD (m :: rest) ""))) acc

/-- Specification-side characterization of the amounts step, following
the wording of the spec: for one field, the authoritative value is the
normalized *last* match of the *last* matching pattern in that field
prioritized pattern list, or nothing when no pattern matches. -/
def lastAmountValue (t : String) (ps : List Re) : Option String :=
  lastAmountValueFrom t none ps

/-- Pattern `Sprzedawca[:\s]*\n([^\n]+)`. -/
def sprzedawcaPattern : Re :=
  Re.cat [Re.rstr "Sprzedawca", .star colonSp, Re.chr '\n',
    .grp 1 (Re.plus (Re.noneOf "\n"))]

/-- Pattern `INVOICE\s*\n([^\n]+)\s*\n([^\n]+street[^\n]*)`. -/
def invoiceSellerPattern : Re :=
  Re.cat [Re.rstr "INVOICE", .star Re.sp, Re.chr '\n',
    .grp 1 (Re.plus (Re.noneOf "\n")), .star Re.sp, Re.chr '\n',
    .grp 2 (Re.cat [Re.plus (Re.noneOf "\n"), Re.rstr "street",
      .star (Re.noneOf "\n")])]

/-- Pattern `Nabywca[:\s]*\n([^\n]+)`. -/
def nabywcaPattern : Re :=
  Re.cat [Re.rstr "Nabywca", .star colonSp, Re.chr '\n',
    .grp 1 (Re.plus (Re.noneOf "\n"))]

/-- Pattern `Bill\s+To[:\s]*([^\n]+)`. -/
def billToPattern : Re :=
  Re.cat [Re.rstr "Bill", Re.plus Re.sp, Re.rstr "To", .star colonSp,
    .grp 1 (Re.plus (Re.noneOf "\n"))]

/-- Lines 457-459: the `Sprzedawca` anchor. -/
def namesStepA (t : String) (d : Dict) : Dict :=
  match reSearchG1 true sprzedawcaPattern t.data with
  | some nm => dset d "seller_name" (pyStrip nm)
  | none => d

/-- Lines 462-467: the English `INVOICE` fallback, only when
`seller_name` is still empty; sets both name and street. -/
def namesStepB (t : String) (d : Dict) : Dict :=
  if (dget? d "seller_name").getD "" = "" then
    match reSearch true invoiceSellerPattern t.data with
    | some (_, _, g) =>
        dset (dset d "seller_name" (pyStrip ((capGet g 1).getD "")))
          "seller_street" (pyStrip ((capGet g 2).getD ""))
    | none => d
  else d

/-- Lines 469-471: the `Nabywca` anchor. -/
def namesStepC (t : String) (d : Dict) : Dict :=
  match reSearchG1 true nabywcaPattern t.data with
  | some nm => dset d "buyer_name" (pyStrip nm)
  | none => d

/-- Lines 474-477: the `Bill To` fallback, only when `buyer_name` is
still empty. -/
def namesStepD (t : String) (d : Dict) : Dict :=
  if (dget? d "buyer_name").getD "" = "" then
    match reSearchG1 true billToPattern t.data with
    | some nm => dset d "buyer_name" (pyStrip nm)
    | none => d
  else d

/-- Pattern 5 step (lines 453-477): company names, Polish anchors first,
English fallbacks only when the field is still empty. -/
def namesStep (t : String) (d : Dict) : Dict :=
  namesStepD t (namesStepC t (namesStepB t (namesStepA t d)))

/-- Pattern `(?:ul\.|al\.|pl\.)\s+([^\n,]+)`. -/
def streetPattern : Re :=
  Re.cat [.alt (Re.rstr "ul.") (.alt (Re.rstr "al.") (Re.rstr "pl.")),
    Re.plus Re.sp, .grp 1 (Re.plus (Re.noneOf "\n,"))]

/-- Pattern `([A-ZĄĆĘŁŃÓŚŹŻa-ząćęłńóśźż]+\s+street[^,\n]+)`. -/
def sellerStreetEngPattern : Re :=
  .grp 1 (Re.cat [Re.plus (.cls false (polishUpperAtoms ++ polishLowerAtoms)),
    Re.plus Re.sp, Re.rstr "street", Re.plus (Re.noneOf ",\n")])

/-- Pattern `Bill\s+To[^\n]*\n[^\n]+\n([^\n]+)`. -/
def buyerStreetEngPattern : Re :=
  Re.cat [Re.rstr "Bill", Re.plus Re.sp, Re.rstr "To",
    .star (Re.noneOf "\n"), Re.chr '\n', Re.plus (Re.noneOf "\n"),
    Re.chr '\n', .grp 1 (Re.plus (Re.noneOf "\n"))]

/-- Lines 481-488: the Polish street-abbreviation scan, positional. -/
def streetsStepA (t : String) (d : Dict) : Dict :=
  match reFindall1 true streetPattern t.data with
  | m0 :: m1 :: _ =>
      dset (dset d "seller_street" (pyStrip m0))
        "buyer_street" (pyStrip m1)
  | [m0] =>
      if (dget? d "seller_street").getD "" = "" then
        dset d "seller_street" (pyStrip m0)
      else d
  | [] => d

/-- Lines 491-494: the English `... street` fallback for an empty
`seller_street`. -/
def streetsStepB (t : String) (d : Dict) : Dict :=
  if (dget? d "seller_street").getD "" = "" then
    match reSearchG1 true sellerStreetEngPattern t.data with
    | some m => dset d "seller_street" (pyStrip m)
    | none => d
  else d

/-- Lines 496-500: the `Bill To` third-line fallback for an empty
`buyer_street`. -/
def streetsStepC (t : String) (d : Dict) : Dict :=
  if (dget? d "buyer_street").getD "" = "" then
    match reSearchG1 true buyerStreetEngPattern t.data with
    | some m => dset d "buyer_street" (pyStrip m)
    | none => d
  else d

/-- Pattern 6 step (lines 479-500): Polish street prefixes by position,
then English fallbacks for still-empty fields. -/
def streetsStep (t : String) (d : Dict) : Dict :=
  streetsStepC t (streetsStepB t (streetsStepA t d))

/-- Pattern `(\d{2}-\d{3})[,\s]+([A-ZĄĆĘŁŃÓŚŹŻa-ząćęłńóśźż\s]+)` (the only
case-sensitive pattern: its `findall` passes no flags). -/
def postalPattern : Re :=
  Re.cat [.grp 1 (Re.cat [Re.repN 2 Re.d, Re.chr '-', Re.repN 3 Re.d]),
    Re.plus commaSp,
    .grp 2 (Re.plus (.cls false
      (polishUpperAtoms ++ polishLowerAtoms ++ [CAtom.space])))]

/-- Pattern 7 step (lines 502-512): two or more matches — the second one
goes to the buyer; exactly one match — assigned to the buyer when the literal `Bill To`
occurs in the text *or* `buyer_post_code` is still empty. -/
def postalStep (t : String) (d : Dict) : Dict :=
  match reFindall2 false postalPattern t.data with
  | _ :: m1 :: _ =>
      dset (dset d "buyer_post_code" m1.1)
        "buyer_city" (pyRstrip ',' (pyStrip m1.2))
  | [m0] =>
      if pyContains "Bill To" t || (dget? d "buyer_post_code").getD "" = ""
      then
        dset (dset d "buyer_post_code" m0.1)
          "buyer_city" (pyRstrip ',' (pyStrip m0.2))
      else d
  | [] => d

/-- The initial dict of lines 340-357. -/
def ruleCascadeInit : Dict :=
  [("seller_name", ""), ("seller_tax_no", ""), ("seller_street", ""),
   ("seller_country", "PL"), ("buyer_name", ""), ("buyer_tax_no", ""),
   ("buyer_street", ""), ("buyer_post_code", ""), ("buyer_city", ""),
   ("buyer_country", "PL"), ("currency", "PLN"), ("issue_date", ""),
   ("number", ""), ("price_net", "0.00"), ("price_tax", "0.00"),
   ("price_gross", "0.00")]

/-- The whole rule cascade: the seven pattern steps in source order. -/
def ruleCascade (t : String) : Dict :=
  postalStep t (streetsStep t (namesStep t (amountsStep t
    (dateStep t (numberStep t (nipStep t ruleCascadeInit))))))

/-- The required-field list of lines 515-518. -/
def requiredFields : List String :=
  ["seller_name", "seller_tax_no", "buyer_name", "buyer_tax_no",
   "number", "issue_date", "price_net", "price_tax", "price_gross"]

/-- Line 520: a required field is missing when it is empty (or absent) or
still holds the `"0.00"` placeholder. -/
def missingFields (d : Dict) : List String :=
  requiredFields.filter
    (fun f => (dget? d f).getD "" = "" || (dget? d f).getD "" = "0.00")

/-- Function `parse_invoice_with_rules`: the cascade followed by the completeness
gate; returns the (possibly partial) dict and the success flag. -/
def parse_invoice_with_rules (t : String) : Dict × Bool :=
  let d := ruleCascade t
  (d, (missingFields d).isEmpty)

/-! ### Which keys each step writes -/

theorem nipStep_preserves (t : String) (d : Dict) {k : String}
    (h1 : k ≠ "seller_tax_no") (h2 : k ≠ "buyer_tax_no") :
    dget? (nipStep t d) k = dget? d k := by
  rcases hm : reFindall1 true nipPattern t.data with _ | ⟨m0, _ | ⟨m1, rest⟩⟩ <;>
    simp [nipStep, hm, dget?_dset_ne, h1, h2]

theorem numberStep_preserves (t : String) (d : Dict) {k : String}
    (h : k ≠ "number") :
    dget? (numberStep t d) k = dget? d k := by
  rcases hm : numberStepValue t.data with _ | v <;>
    simp [numberStep, hm, dget?_dset_ne, h]

theorem dateStep_preserves (t : String) (d : Dict) {k : String}
    (h : k ≠ "issue_date") :
    dget? (dateStep t d) k = dget? d k := by
  rcases hm : dateStepValue t.data with _ | v <;>
    simp [dateStep, hm, dget?_dset_ne, h]

theorem amountApply_preserves (t : String) (d : Dict) (pf : Re × String)
    {k : String} (h : k ≠ pf.2) :
    dget? (amountApply t d pf) k = dget? d k := by
  rcases hm : reFindall1 true pf.1 t.data with _ | ⟨m, rest⟩ <;>
    simp [amountApply, hm, dget?_dset_ne, h]

theorem amountsStep_preserves (t : String) (d : Dict) {k : String}
    (h1 : k ≠ "price_net") (h2 : k ≠ "price_tax") (h3 : k ≠ "price_gross") :
    dget? (amountsStep t d) k = dget? d k := by
  unfold amountsStep amountPatterns
  simp only [List.foldl_cons, List.foldl_nil]
  rw [amountApply_preserves _ _ _ h3, amountApply_preserves _ _ _ h3,
    amountApply_preserves _ _ _ h3, amountApply_preserves _ _ _ h2,
    amountApply_preserves _ _ _ h1, amountApply_preserves _ _ _ h3,
    amountApply_preserves _ _ _ h2, amountApply_preserves _ _ _ h1]

theorem amountApply_self (t : String) (d : Dict) (pf : Re × String) :
    dget? (amountApply t d pf) pf.2 =
      match reFindall1 true pf.1 t.data with
      | [] => dget? d pf.2
      | m :: rest => some (pyNormalizeAmount (List.getLastD (m :: rest) "")) := by
  rcases hm : reFindall1 true pf.1 t.data with _ | ⟨m, rest⟩ <;>
    simp [amountApply, hm, dget?_dset_self]

theorem lastAmountValueFrom_none (t : String) (ps : List Re)
    (acc : Option String) :
    lastAmountValueFrom t acc ps =
      match lastAmountValue t ps with
      | some v => some v
      | none => acc := by
  unfold lastAmountValue
  induction ps generalizing acc with
  | nil => rfl
  | cons p rest ih =>
      simp only [lastAmountValueFrom, List.foldl_cons] at ih ⊢
      rcases hm : reFindall1 true p t.data with _ | ⟨m, ms⟩
      · simp only [hm]
        exact ih acc
      · simp only [hm]
        rw [ih]
        rcases rest.foldl _ none with _ | v <;> rfl

/-- The amounts fold, restricted to one field: only the patterns listed
for that field matter, in their relative order, each matching one
overriding the previous value. -/
theorem amounts_fold_char (t : String) (f : String) (ps : List (Re × String))
    (d : Dict) :
    dget? (ps.foldl (amountApply t) d) f =
      lastAmountValueFrom t (dget? d f)
        ((ps.filter (fun pf => pf.2 = f)).map (fun pf => pf.1)) := by
  induction ps generalizing d with
  | nil => rfl
  | cons pf rest ih =>
      simp only [List.foldl_cons]
      rw [ih]
      by_cases hf : pf.2 = f
      · have hstep := amountApply_self t d pf
        rw [hf] at hstep
        rw [hstep]
        rcases hm : reFindall1 true pf.1 t.data with _ | ⟨m, ms⟩ <;>
          simp [hm, List.filter_cons, hf, lastAmountValueFrom]
      · rw [amountApply_preserves t d pf (fun hh => hf hh.symm)]
        simp [List.filter_cons, hf]

theorem namesStepA_preserves (t : String) (d : Dict) {k : String}
    (h1 : k ≠ "seller_name") :
    dget? (namesStepA t d) k = dget? d k := by
  rcases hm : reSearchG1 true sprzedawcaPattern t.data with _ | nm <;>
    simp [namesStepA, hm, dget?_dset_ne, h1]

theorem namesStepB_preserves (t : String) (d : Dict) {k : String}
    (h1 : k ≠ "seller_name") (h2 : k ≠ "seller_street") :
    dget? (namesStepB t d) k = dget? d k := by
  unfold namesStepB
  split
  · rcases hm : reSearch true invoiceSellerPattern t.data with _ | ⟨st, len, g⟩ <;>
      simp [hm, dget?_dset_ne, h1, h2]
  · rfl

theorem namesStepC_preserves (t : String) (d : Dict) {k : String}
    (h1 : k ≠ "buyer_name") :
    dget? (namesStepC t d) k = dget? d k := by
  rcases hm : reSearchG1 true nabywcaPattern t.data with _ | nm <;>
    simp [namesStepC, hm, dget?_dset_ne, h1]

theorem namesStepD_preserves (t : String) (d : Dict) {k : String}
    (h1 : k ≠ "buyer_name") :
    dget? (namesStepD t d) k = dget? d k := by
  unfold namesStepD
  split
  · rcases hm : reSearchG1 true billToPattern t.data with _ | nm <;>
      simp [hm, dget?_dset_ne, h1]
  · rfl

theorem namesStep_preserves (t : String) (d : Dict) {k : String}
    (h1 : k ≠ "seller_name") (h2 : k ≠ "seller_street")
    (h3 : k ≠ "buyer_name") :
    dget? (namesStep t d) k = dget? d k := by
  unfold namesStep
  rw [namesStepD_preserves _ _ h3, namesStepC_preserves _ _ h3,
    namesStepB_preserves _ _ h1 h2, namesStepA_preserves _ _ h1]

theorem streetsStepA_preserves (t : String) (d : Dict) {k : String}
    (h1 : k ≠ "seller_street") (h2 : k ≠ "buyer_street") :
    dget? (streetsStepA t d) k = dget? d k := by
  rcases hm : reFindall1 true streetPattern t.data with _ | ⟨m0, _ | ⟨m1, rest⟩⟩
  · simp [streetsStepA, hm]
  · unfold streetsStepA
    rw [hm]
    show dget? (if (dget? d "seller_street").getD "" = "" then
        dset d "seller_street" (pyStrip m0) else d) k = dget? d k
    split <;> simp [dget?_dset_ne, h1]
  · simp [streetsStepA, hm, dget?_dset_ne, h1, h2]

theorem streetsStepB_preserves (t : String) (d : Dict) {k : String}
    (h1 : k ≠ "seller_street") :
    dget? (streetsStepB t d) k = dget? d k := by
  unfold streetsStepB
  split
  · rcases hm : reSearchG1 true sellerStreetEngPattern t.data with _ | m <;>
      simp [hm, dget?_dset_ne, h1]
  · rfl

theorem streetsStepC_preserves (t : String) (d : Dict) {k : String}
    (h1 : k ≠ "buyer_street") :
    dget? (streetsStepC t d) k = dget? d k := by
  unfold streetsStepC
  split
  · rcases hm : reSearchG1 true buyerStreetEngPattern t.data with _ | m <;>
      simp [hm, dget?_dset_ne, h1]
  · rfl

theorem streetsStep_preserves (t : String) (d : Dict) {k : String}
    (h1 : k ≠ "seller_street") (h2 : k ≠ "buyer_street") :
    dget? (streetsStep t d) k = dget? d k := by
  unfold streetsStep
  rw [streetsStepC_preserves _ _ h2, streetsStepB_preserves _ _ h1,
    streetsStepA_preserves _ _ h1 h2]

theorem postalStep_preserves (t : String) (d : Dict) {k : String}
    (h1 : k ≠ "buyer_post_code") (h2 : k ≠ "buyer_city") :
    dget? (postalStep t d) k = dget? d k := by
  rcases hm : reFindall2 false postalPattern t.data with _ | ⟨m0, _ | ⟨m1, rest⟩⟩
  · simp [postalStep, hm]
  · unfold postalStep
    rw [hm]
    show dget? (if pyContains "Bill To" t ||
          (dget? d "buyer_post_code").getD "" = "" then
        dset (dset d "buyer_post_code" m0.1)
          "buyer_city" (pyRstrip ',' (pyStrip m0.2))
      else d) k = dget? d k
    split <;> simp [dget?_dset_ne, h1, h2]
  · simp [postalStep, hm, dget?_dset_ne, h1, h2]

/-- The dict state reaching Pattern 7: none of the six earlier steps ever
writes `buyer_post_code`, so it still holds its initial empty value. -/
theorem buyer_post_code_before_postal (t : String) :
    dget? (streetsStep t (namesStep t (amountsStep t (dateStep t
      (numberStep t (nipStep t ruleCascadeInit)))))) "buyer_post_code" =
      some "" := by
  rw [streetsStep_preserves _ _ (by decide) (by decide),
    namesStep_preserves _ _ (by decide) (by decide) (by decide),
    amountsStep_preserves _ _ (by decide) (by decide) (by decide),
    dateStep_preserves _ _ (by decide),
    numberStep_preserves _ _ (by decide),
    nipStep_preserves _ _ (by decide) (by decide)]
  rfl

/-- No step of the cascade ever creates a `seller_post_code` or
`seller_city` key: the extracted record simply has no such fields. -/
theorem cascade_no_seller_postal (t : String) :
    dget? (ruleCascade t) "seller_post_code" = none ∧
    dget? (ruleCascade t) "seller_city" = none := by
  unfold ruleCascade
  constructor <;>
    (rw [postalStep_preserves _ _ (by decide) (by decide),
      streetsStep_preserves _ _ (by decide) (by decide),
      namesStep_preserves _ _ (by decide) (by decide) (by decide),
      amountsStep_preserves _ _ (by decide) (by decide) (by decide),
      dateStep_preserves _ _ (by decide),
      numberStep_preserves _ _ (by decide),
      nipStep_preserves _ _ (by decide) (by decide)]; rfl)

/-- C3: for every input text, `parse_invoice_with_rules` reports success
iff each of the nine required fields is, after the cascade, non-empty and
different from the `"0.00"` placeholder; a missing field always yields a
failure result, never a partially-filled success. -/
theorem C3_completeness_gate (t : String) :
    (parse_invoice_with_rules t).2 = true ↔
      ∀ f ∈ requiredFields,
        (dget? (ruleCascade t) f).getD "" ≠ "" ∧
        (dget? (ruleCascade t) f).getD "" ≠ "0.00" := by
  show ((missingFields (ruleCascade t)).isEmpty = true) ↔ _
  rw [List.isEmpty_iff]
  unfold missingFields
  rw [List.filter_eq_nil_iff]
  constructor
  · intro h f hf
    have := h f hf
    simp only [decide_eq_true_eq, Bool.or_eq_true, not_or] at this
    exact this
  · intro h f hf
    have := h f hf
    simp only [decide_eq_true_eq, Bool.or_eq_true, not_or]
    exact this

/-- C3 witness: the gate equivalence at the empty text. -/
theorem C3_completeness_gate_witness :
    (parse_invoice_with_rules "").2 = true ↔
      ∀ f ∈ requiredFields,
        (dget? (ruleCascade "") f).getD "" ≠ "" ∧
        (dget? (ruleCascade "") f).getD "" ≠ "0.00" :=
  C3_completeness_gate ""

/-- C10: when the postal-code pattern has exactly one match in the text,
the cascade assigns it to the buyer (post code and city), regardless of
whether a `Bill To` anchor is present — the second disjunct of the guard is
vacuously true because `buyer_post_code` is still empty at Pattern 7 —
and the record never has a `seller_post_code` or `seller_city` field. -/
theorem C10_single_postal_to_buyer (t : String) (pc city : String)
    (h : reFindall2 false postalPattern t.data = [(pc, city)]) :
    dget? (ruleCascade t) "buyer_post_code" = some pc ∧
    dget? (ruleCascade t) "buyer_city" =
      some (pyRstrip ',' (pyStrip city)) ∧
    dget? (ruleCascade t) "seller_post_code" = none ∧
    dget? (ruleCascade t) "seller_city" = none := by
  obtain ⟨hsp, hsc⟩ := cascade_no_seller_postal t
  refine ⟨?_, ?_, hsp, hsc⟩ <;>
  · show dget? (postalStep t _) _ = _
    unfold postalStep
    rw [h, buyer_post_code_before_postal t]
    simp only [Option.getD_some, decide_True, Bool.or_true, if_true]
    first
    | rw [dget?_dset_ne _ _ (by decide), dget?_dset_self]
    | rw [dget?_dset_self]

/-- C10 witness: the single-match scenario on a concrete text with no
`Bill To` anchor. -/
theorem C10_single_postal_to_buyer_witness :
    dget? (ruleCascade "02-123 Warszawa") "buyer_post_code" =
      some "02-123" ∧
    dget? (ruleCascade "02-123 Warszawa") "buyer_city" =
      some (pyRstrip ',' (pyStrip "Warszawa")) ∧
    dget? (ruleCascade "02-123 Warszawa") "seller_post_code" = none ∧
    dget? (ruleCascade "02-123 Warszawa") "seller_city" = none :=
  C10_single_postal_to_buyer "02-123 Warszawa" "02-123" "Warszawa"
    (by decide)

/-- C6 (counterexample): for the text `"Netto: 123,45"` — a Polish amount
written with a decimal comma — the extracted `price_net` is `"12345.00"`:
the comma is stripped as a thousands separator, not interpreted as the
decimal point (which would give `"123.45"`). -/
theorem C6_counterexample :
    dget? (ruleCascade "Netto: 123,45") "price_net" = some "12345.00" ∧
    dget? (ruleCascade "Netto: 123,45") "price_net" ≠ some "123.45" := by
  have h : dget? (ruleCascade "Netto: 123,45") "price_net" =
      some "12345.00" := by decide
  exact ⟨h, by rw [h]; decide⟩

/-- The dict state reaching Pattern 4: the three earlier steps only write
tax numbers, the invoice number and the issue date, so any other key still
holds its initial value. -/
theorem cascadePre_value (t : String) {f : String}
    (h1 : f ≠ "seller_tax_no") (h2 : f ≠ "buyer_tax_no")
    (h3 : f ≠ "number") (h4 : f ≠ "issue_date") :
    dget? (dateStep t (numberStep t (nipStep t ruleCascadeInit))) f =
      dget? ruleCascadeInit f := by
  rw [dateStep_preserves _ _ h4, numberStep_preserves _ _ h3,
    nipStep_preserves _ _ h1 h2]

/-- C6 (amended): for every monetary-total field, the cascade evaluates
that field prioritized phrase-anchored patterns in order — `price_net`:
SUBTOTAL then Netto; `price_tax`: the English VAT pattern then the Polish
one; `price_gross`: TOTAL, brutto, Razem, Do zapłaty — each matching
pattern overriding the field with the normalization of its *last* match,
so the last match of the last matching pattern is authoritative, and a
field with no match keeps its `"0.00"` placeholder; normalization strips
spaces and every comma as a thousands separator, so the decimal-comma
amount `"123,45"` yields `"12345.00"`, not `"123.45"`. -/
theorem C6_amount_extraction (t : String) :
    dget? (ruleCascade t) "price_net" =
      some ((lastAmountValue t [subtotalPattern, nettoPattern]).getD
        "0.00") ∧
    dget? (ruleCascade t) "price_tax" =
      some ((lastAmountValue t [vatEngPattern, vatPlPattern]).getD
        "0.00") ∧
    dget? (ruleCascade t) "price_gross" =
      some ((lastAmountValue t [totalEngPattern, bruttoPattern,
        razemPattern, doZaplatyPattern]).getD "0.00") ∧
    pyNormalizeAmount "123,45" = "12345.00" := by
  refine ⟨?_, ?_, ?_, by decide⟩
  · show dget? (postalStep t (streetsStep t (namesStep t
      (amountsStep t _)))) _ = _
    rw [postalStep_preserves _ _ (by decide) (by decide),
      streetsStep_preserves _ _ (by decide) (by decide),
      namesStep_preserves _ _ (by decide) (by decide) (by decide)]
    unfold amountsStep
    rw [amounts_fold_char]
    rw [show (amountPatterns.filter
        (fun pf => pf.2 = "price_net")).map (fun pf => pf.1) =
      [subtotalPattern, nettoPattern] from rfl]
    rw [cascadePre_value t (by decide) (by decide) (by decide) (by decide)]
    rw [show dget? ruleCascadeInit "price_net" = some "0.00" from rfl]
    rw [lastAmountValueFrom_none]
    rcases lastAmountValue t [subtotalPattern, nettoPattern] with _ | v <;>
      rfl
  · show dget? (postalStep t (streetsStep t (namesStep t
      (amountsStep t _)))) _ = _
    rw [postalStep_preserves _ _ (by decide) (by decide),
      streetsStep_preserves _ _ (by decide) (by decide),
      namesStep_preserves _ _ (by decide) (by decide) (by decide)]
    unfold amountsStep
    rw [amounts_fold_char]
    rw [show (amountPatterns.filter
        (fun pf => pf.2 = "price_tax")).map (fun pf => pf.1) =
      [vatEngPattern, vatPlPattern] from rfl]
    rw [cascadePre_value t (by decide) (by decide) (by decide) (by decide)]
    rw [show dget? ruleCascadeInit "price_tax" = some "0.00" from rfl]
    rw [lastAmountValueFrom_none]
    rcases lastAmountValue t [vatEngPattern, vatPlPattern] with _ | v <;>
      rfl
  · show dget? (postalStep t (streetsStep t (namesStep t
      (amountsStep t _)))) _ = _
    rw [postalStep_preserves _ _ (by decide) (by decide),
      streetsStep_preserves _ _ (by decide) (by decide),
      namesStep_preserves _ _ (by decide) (by decide) (by decide)]
    unfold amountsStep
    rw [amounts_fold_char]
    rw [show (amountPatterns.filter
        (fun pf => pf.2 = "price_gross")).map (fun pf => pf.1) =
      [totalEngPattern, bruttoPattern, razemPattern, doZaplatyPattern]
      from rfl]
    rw [cascadePre_value t (by decide) (by decide) (by decide) (by decide)]
    rw [show dget? ruleCascadeInit "price_gross" = some "0.00" from rfl]
    rw [lastAmountValueFrom_none]
    rcases lastAmountValue t [totalEngPattern, bruttoPattern, razemPattern,
      doZaplatyPattern] with _ | v <;> rfl

/-- C7 (counterexample): a text *containing* `Data wystawienia:
02.04.2025` need not yield issue date `"2025-04-02"`: an earlier-priority
English date pattern wins, here `DATE: 5 May, 2024` giving
`"2024-05-05"`. -/
theorem C7_counterexample :
    pyContains "Data wystawienia: 02.04.2025"
      "DATE: 5 May, 2024\nData wystawienia: 02.04.2025" = true ∧
    dget? (ruleCascade "DATE: 5 May, 2024\nData wystawienia: 02.04.2025")
      "issue_date" = some "2024-05-05" ∧
    dget? (ruleCascade "DATE: 5 May, 2024\nData wystawienia: 02.04.2025")
      "issue_date" ≠ some "2025-04-02" := by
  have h : dget? (ruleCascade
      "DATE: 5 May, 2024\nData wystawienia: 02.04.2025") "issue_date" =
      some "2024-05-05" := by decide
  exact ⟨by decide, h, by rw [h]; decide⟩

/-- C7 (amended): for any text in which none of the three higher-priority
date patterns matches and whose first `Data wystawienia: DD.MM.YYYY`
match captures `02.04.2025`, the cascade sets `issue_date` to the
reordered canonical form `"2025-04-02"`. -/
theorem C7_date_normalization (t : String)
    (h1 : reSearch true dateP1 t.data = none)
    (h2 : reSearch true dateP2 t.data = none)
    (h3 : reSearch true dateP3 t.data = none)
    (h4 : reSearchG1 true dateP4 t.data = some "02.04.2025") :
    dget? (ruleCascade t) "issue_date" = some "2025-04-02" := by
  rcases hr : reSearch true dateP4 t.data with _ | ⟨st, len, g⟩
  · unfold reSearchG1 at h4
    rw [hr] at h4
    exact absurd h4 (by simp)
  · unfold reSearchG1 at h4
    rw [hr] at h4
    simp only [Option.some.injEq] at h4
    have hv : dateStepValue t.data = some "2025-04-02" := by
      unfold dateStepValue datePatterns
      simp only [findFirst, h1, h2, h3, hr]
      rw [if_neg (by decide : ¬(reMaxGroup dateP4 = 3))]
      rw [h4]
      rw [if_pos (by decide :
        reMatchesAtStart false dottedDate "02.04.2025" = true)]
      rw [show (pySplitAny ['-', '/', '.'] "02.04.2025").getD 2 "" ++ "-" ++
          (pySplitAny ['-', '/', '.'] "02.04.2025").getD 1 "" ++ "-" ++
          (pySplitAny ['-', '/', '.'] "02.04.2025").getD 0 "" =
          "2025-04-02" from by decide]
    show dget? (postalStep t (streetsStep t (namesStep t
      (amountsStep t (dateStep t _))))) _ = _
    rw [postalStep_preserves _ _ (by decide) (by decide),
      streetsStep_preserves _ _ (by decide) (by decide),
      namesStep_preserves _ _ (by decide) (by decide) (by decide),
      amountsStep_preserves _ _ (by decide) (by decide) (by decide)]
    unfold dateStep
    rw [hv]
    exact dget?_dset_self _ _ _

/-- C7 witness: a text consisting exactly of the anchor phrase. -/
theorem C7_date_normalization_witness :
    dget? (ruleCascade "Data wystawienia: 02.04.2025") "issue_date" =
      some "2025-04-02" :=
  C7_date_normalization "Data wystawienia: 02.04.2025"
    (by decide) (by decide) (by decide) (by decide)

/-! ## The XML encoder
(`KSeFXMLConverter.convert_to_ksef_xml`, `invoice_pdf_to_ksef_xml.py`
lines 66-196; the module `ksef_xml_converter.py` lines 22-149 is the same
construction with the variant fixed to `2`). -/

/-- Ambient process state the scripts read: the wall clock
(`datetime.now()`, already formatted), the logging correlation id, and
the process environment. -/
structure World where
  now : String
  correlationId : String
  envVars : List (String × String)

/-- An XML element: tag, attributes, children, optional text content (the
leaves of the encoder carry text, its inner nodes carry children). -/
inductive Xml where
  | el (tag : String) (attrs : List (String × String)) (children : List Xml)
      (txt : Option String)

/-- Text/attribute escaping as performed by the serializer. -/
def xmlEscape (s : String) : String :=
  s.data.foldl (fun acc c =>
    acc ++ (if c = '&' then "&amp;"
      else if c = '<' then "&lt;"
      else if c = '>' then "&gt;"
      else if c = '"' then "&quot;"
      else String.mk [c])) ""

def renderAttrs (attrs : List (String × String)) : String :=
  attrs.foldl (fun acc kv =>
    acc ++ " " ++ kv.1 ++ "=\"" ++ xmlEscape kv.2 ++ "\"") ""

mutual

/-- Pretty printing in the style of `minidom.toprettyxml(indent="    ")`:
one element per line, four-space indentation, leaf text inline. -/
def renderXml (ind : String) : Xml → String
  | .el tag attrs children txt =>
    match txt, children with
    | some s, _ =>
        ind ++ "<" ++ tag ++ renderAttrs attrs ++ ">" ++ xmlEscape s ++
          "</" ++ tag ++ ">\n"
    | none, [] => ind ++ "<" ++ tag ++ renderAttrs attrs ++ "/>\n"
    | none, c :: cs =>
        ind ++ "<" ++ tag ++ renderAttrs attrs ++ ">\n" ++
          renderChildren (ind ++ "    ") (c :: cs) ++
          ind ++ "</" ++ tag ++ ">\n"

def renderChildren (ind : String) : List Xml → String
  | [] => ""
  | x :: xs => renderXml ind x ++ renderChildren ind xs

end

/-- Access `invoice_data[k]`: a missing key raises `KeyError(k)`. -/
def dictGet (d : Dict) (k : String) : Except String String :=
  match dget? d k with
  | some v => Except.ok v
  | none => Except.error k

/-- Function `convert_to_ksef_xml`: builds the element tree in schema order and
serializes it.  `variantNumber` is `self.schema_type[-1]` (`"2"` or
`"3"`); the world supplies the creation timestamp.  Dict accesses happen
in source order; `seller_country` and `buyer_country` are the only
`get`-with-default reads. -/
def convert_to_ksef_xml (variantNumber : String) (d : Dict) (w : World) :
    Except String String := do
  let seller_tax_no ← dictGet d "seller_tax_no"
  let seller_name ← dictGet d "seller_name"
  let seller_country := (dget? d "seller_country").getD "PL"
  let seller_street ← dictGet d "seller_street"
  let buyer_tax_no ← dictGet d "buyer_tax_no"
  let buyer_name ← dictGet d "buyer_name"
  let buyer_country := (dget? d "buyer_country").getD "PL"
  let buyer_street ← dictGet d "buyer_street"
  let buyer_post_code ← dictGet d "buyer_post_code"
  let buyer_city ← dictGet d "buyer_city"
  let currency ← dictGet d "currency"
  let issue_date ← dictGet d "issue_date"
  let number ← dictGet d "number"
  let price_net ← dictGet d "price_net"
  let price_tax ← dictGet d "price_tax"
  let price_gross ← dictGet d "price_gross"
  let ns := "http://crd.gov.pl/wzor/2023/06/29/12648/"
  let root : Xml := .el "Faktura"
    [("xmlns", ns),
     ("xmlns:xsi", "http://www.w3.org/2001/XMLSchema-instance"),
     ("xsi:schemaLocation",
       ns ++ " http://crd.gov.pl/wzor/2023/06/29/12648/schemat.xsd")]
    [.el "Naglowek" [] [
        .el "KodFormularza"
          [("kodSystemowy", "FA (" ++ variantNumber ++ ")"),
           ("wersjaSchemy", "1-0E")] [] (some "FA"),
        .el "WariantFormularza" [] [] (some variantNumber),
        .el "DataWytworzeniaFa" [] [] (some w.now)] none,
     .el "Podmiot1" [] [
        .el "DaneIdentyfikacyjne" [] [
          .el "NIP" [] [] (some seller_tax_no),
          .el "Nazwa" [] [] (some seller_name)] none,
        .el "Adres" [] [
          .el "KodKraju" [] [] (some seller_country),
          .el "AdresL1" [] [] (some seller_street)] none] none,
     .el "Podmiot2" [] [
        .el "DaneIdentyfikacyjne" [] [
          .el "NIP" [] [] (some buyer_tax_no),
          .el "Nazwa" [] [] (some buyer_name)] none,
        .el "Adres" [] [
          .el "KodKraju" [] [] (some buyer_country),
          .el "AdresL1" [] []
            (some (buyer_street ++ ", " ++ buyer_post_code ++ " " ++
              buyer_city))] none] none,
     .el "Fa" [] [
        .el "KodWaluty" [] [] (some currency),
        .el "P_1" [] [] (some issue_date),
        .el "P_2" [] [] (some number),
        .el "P_13_1" [] [] (some price_net),
        .el "P_14_1" [] [] (some price_tax),
        .el "P_15" [] [] (some price_gross),
        .el "Adnotacje" [] [
          .el "P_16" [] [] (some "2"),
          .el "P_17" [] [] (some "2"),
          .el "P_18" [] [] (some "2"),
          .el "P_18A" [] [] (some "2"),
          .el "Zwolnienie" [] [.el "P_19N" [] [] (some "1")] none,
          .el "NoweSrodkiTransportu" [] [.el "P_22N" [] [] (some "1")] none,
          .el "P_23" [] [] (some "2"),
          .el "PMarzy" [] [.el "P_PMarzyN" [] [] (some "1")] none] none,
        .el "RodzajFaktury" [] [] (some "VAT")] none]
    none
  pure ("<?xml version=\"1.0\" encoding=\"utf-8\"?>\n" ++ renderXml "" root)

/-- The keys the encoder reads with a plain (raising) subscript, in source
order. -/
def requiredEncodeKeys : List String :=
  ["seller_tax_no", "seller_name", "seller_street", "buyer_tax_no",
   "buyer_name", "buyer_street", "buyer_post_code", "buyer_city",
   "currency", "issue_date", "number", "price_net", "price_tax",
   "price_gross"]

/-- The encoder succeeds exactly when every raising key is present; the
two country keys never influence success. -/
theorem convert_isOk_iff (v : String) (d : Dict) (w : World) :
    (convert_to_ksef_xml v d w).isOk = true ↔
      ∀ k ∈ requiredEncodeKeys, (dget? d k).isSome := by
  unfold convert_to_ksef_xml dictGet
  simp only [requiredEncodeKeys, List.forall_mem_cons, List.forall_mem_nil,
    and_true]
  rcases h1 : dget? d "seller_tax_no" with _ | v1
  · simp [h1, Except.bind, bind, Except.isOk, Except.toBool]
  rcases h2 : dget? d "seller_name" with _ | v2
  · simp [h1, h2, Except.bind, bind, Except.isOk, Except.toBool]
  rcases h3 : dget? d "seller_street" with _ | v3
  · simp [h1, h2, h3, Except.bind, bind, Except.isOk, Except.toBool]
  rcases h4 : dget? d "buyer_tax_no" with _ | v4
  · simp [h1, h2, h3, h4, Except.bind, bind, Except.isOk, Except.toBool]
  rcases h5 : dget? d "buyer_name" with _ | v5
  · simp [h1, h2, h3, h4, h5, Except.bind, bind, Except.isOk, Except.toBool]
  rcases h6 : dget? d "buyer_street" with _ | v6
  · simp [h1, h2, h3, h4, h5, h6, Except.bind, bind, Except.isOk, Except.toBool]
  rcases h7 : dget? d "buyer_post_code" with _ | v7
  · simp [h1, h2, h3, h4, h5, h6, h7, Except.bind, bind, Except.isOk, Except.toBool]
  rcases h8 : dget? d "buyer_city" with _ | v8
  · simp [h1, h2, h3, h4, h5, h6, h7, h8, Except.bind, bind, Except.isOk, Except.toBool]
  rcases h9 : dget? d "currency" with _ | v9
  · simp [h1, h2, h3, h4, h5, h6, h7, h8, h9, Except.bind, bind,
      Except.isOk, Except.toBool]
  rcases h10 : dget? d "issue_date" with _ | v10
  · simp [h1, h2, h3, h4, h5, h6, h7, h8, h9, h10, Except.bind, bind,
      Except.isOk, Except.toBool]
  rcases h11 : dget? d "number" with _ | v11
  · simp [h1, h2, h3, h4, h5, h6, h7, h8, h9, h10, h11, Except.bind, bind,
      Except.isOk, Except.toBool]
  rcases h12 : dget? d "price_net" with _ | v12
  · simp [h1, h2, h3, h4, h5, h6, h7, h8, h9, h10, h11, h12, Except.bind,
      bind, Except.isOk, Except.toBool]
  rcases h13 : dget? d "price_tax" with _ | v13
  · simp [h1, h2, h3, h4, h5, h6, h7, h8, h9, h10, h11, h12, h13,
      Except.bind, bind, Except.isOk, Except.toBool]
  rcases h14 : dget? d "price_gross" with _ | v14
  · simp [h1, h2, h3, h4, h5, h6, h7, h8, h9, h10, h11, h12, h13, h14,
      Except.bind, bind, Except.isOk, Except.toBool]
  simp [h1, h2, h3, h4, h5, h6, h7, h8, h9, h10, h11, h12, h13, h14,
    Except.bind, bind, Except.isOk, Except.toBool, pure, Except.pure]

/-- C8: the encoder is a pure function of the invoice record, the schema
variant and the creation timestamp: two runs whose worlds agree on the
frozen clock produce identical output (byte-identical XML on success),
whatever the rest of the ambient process state is. -/
theorem C8_encoder_deterministic (v : String) (d : Dict) (w₁ w₂ : World)
    (h : w₁.now = w₂.now) :
    convert_to_ksef_xml v d w₁ = convert_to_ksef_xml v d w₂ := by
  unfold convert_to_ksef_xml
  rw [h]

/-- C8 witness: two worlds with the same frozen clock but different
correlation ids and environments. -/
theorem C8_encoder_deterministic_witness :
    convert_to_ksef_xml "2"
      [("seller_tax_no", "1234567890"), ("seller_name", "A"),
       ("seller_street", "ul. X 1"), ("buyer_tax_no", "9876543210"),
       ("buyer_name", "B"), ("buyer_street", "ul. Y 2"),
       ("buyer_post_code", "00-001"), ("buyer_city", "Warszawa"),
       ("currency", "PLN"), ("issue_date", "2025-04-02"),
       ("number", "1/4/2025"), ("price_net", "100.00"),
       ("price_tax", "23.00"), ("price_gross", "123.00")]
      ⟨"2025-04-02T10:00:00", "cid-1", []⟩ =
    convert_to_ksef_xml "2"
      [("seller_tax_no", "1234567890"), ("seller_name", "A"),
       ("seller_street", "ul. X 1"), ("buyer_tax_no", "9876543210"),
       ("buyer_name", "B"), ("buyer_street", "ul. Y 2"),
       ("buyer_post_code", "00-001"), ("buyer_city", "Warszawa"),
       ("currency", "PLN"), ("issue_date", "2025-04-02"),
       ("number", "1/4/2025"), ("price_net", "100.00"),
       ("price_tax", "23.00"), ("price_gross", "123.00")]
      ⟨"2025-04-02T10:00:00", "cid-2", [("PATH", "/usr/bin")]⟩ :=
  C8_encoder_deterministic "2" _ _ _ rfl

/-- C9: the encoder requires `buyer_post_code` and `buyer_city` (and every
other plainly subscripted key) — a record missing any of them fails with a
missing-key error — while `seller_country` and `buyer_country` are read
with a `"PL"` default, so a record holding just the fourteen raising keys
encodes successfully with no country keys at all. -/
theorem C9_encoder_required_keys :
    (∀ (v : String) (d : Dict) (w : World),
      dget? d "buyer_post_code" = none →
      (convert_to_ksef_xml v d w).isOk = false) ∧
    (∀ (v : String) (d : Dict) (w : World),
      dget? d "buyer_city" = none →
      (convert_to_ksef_xml v d w).isOk = false) ∧
    (∀ (v : String) (d : Dict) (w : World) (k : String),
      k ∈ requiredEncodeKeys → dget? d k = none →
      (convert_to_ksef_xml v d w).isOk = false) ∧
    (∀ (v : String) (d : Dict) (w : World),
      (∀ k ∈ requiredEncodeKeys, (dget? d k).isSome) →
      (convert_to_ksef_xml v d w).isOk = true) := by
  have key : ∀ (v : String) (d : Dict) (w : World) (k : String),
      k ∈ requiredEncodeKeys → dget? d k = none →
      (convert_to_ksef_xml v d w).isOk = false := by
    intro v d w k hk hnone
    rcases hc : (convert_to_ksef_xml v d w).isOk with _ | _
    · rfl
    · have := (convert_isOk_iff v d w).mp hc k hk
      rw [hnone] at this
      exact absurd this (by simp)
  refine ⟨?_, ?_, key, ?_⟩
  · intro v d w h
    exact key v d w "buyer_post_code" (by simp [requiredEncodeKeys]) h
  · intro v d w h
    exact key v d w "buyer_city" (by simp [requiredEncodeKeys]) h
  · intro v d w h
    exact (convert_isOk_iff v d w).mpr h

/-- C9 witness: a record with exactly the fourteen raising keys (no
country keys) encodes; dropping `buyer_post_code` makes the encode fail. -/
theorem C9_encoder_required_keys_witness :
    (convert_to_ksef_xml "2"
      [("seller_tax_no", "1234567890"), ("seller_name", "A"),
       ("seller_street", "ul. X 1"), ("buyer_tax_no", "9876543210"),
       ("buyer_name", "B"), ("buyer_street", "ul. Y 2"),
       ("buyer_post_code", "00-001"), ("buyer_city", "Warszawa"),
       ("currency", "PLN"), ("issue_date", "2025-04-02"),
       ("number", "1/4/2025"), ("price_net", "100.00"),
       ("price_tax", "23.00"), ("price_gross", "123.00")]
      ⟨"2025-04-02T10:00:00", "cid", []⟩).isOk = true ∧
    (convert_to_ksef_xml "2"
      [("seller_tax_no", "1234567890"), ("seller_name", "A"),
       ("seller_street", "ul. X 1"), ("buyer_tax_no", "9876543210"),
       ("buyer_name", "B"), ("buyer_street", "ul. Y 2"),
       ("buyer_city", "Warszawa"),
       ("currency", "PLN"), ("issue_date", "2025-04-02"),
       ("number", "1/4/2025"), ("price_net", "100.00"),
       ("price_tax", "23.00"), ("price_gross", "123.00")]
      ⟨"2025-04-02T10:00:00", "cid", []⟩).isOk = false :=
  ⟨C9_encoder_required_keys.2.2.2 "2" _ _ (by decide),
   C9_encoder_required_keys.1 "2" _ _ (by decide)⟩

/-! ## Saving (`save_ksef_xml` in both modules) -/

/-- Externally visible effects of a save: the XSD-validation call and the
file write. -/
inductive SaveFx where
  | validateCall
  | fileWrite
deriving DecidableEq, Repr

/-- Function `save_ksef_xml` of `invoice_pdf_to_ksef_xml.py` (lines 281-301):
encode, validate against the XSD when `validate` is set (the verdict of the external
validator — is-valid flag and error text — is a parameter),
raise `ValueError` on a failed validation *before* opening the output
file, otherwise write.  Returns the effects performed and the outcome. -/
def save_ksef_xml (variantNumber : String) (d : Dict) (w : World)
    (xsdVerdict : Bool × String) (validate : Bool) :
    List SaveFx × Except String Unit :=
  match convert_to_ksef_xml variantNumber d w with
  | .error k => ([], .error ("KeyError: " ++ k))
  | .ok _ =>
    if validate then
      match xsdVerdict with
      | (false, errMsg) =>
          ([.validateCall], .error ("XML validation failed:\n" ++ errMsg))
      | (true, _) => ([.validateCall, .fileWrite], .ok ())
    else ([.fileWrite], .ok ())

/-- Function `save_ksef_xml` of `ksef_xml_converter.py` (lines 151-155): encode and
write; there is no validation call and no way to request one. -/
def save_ksef_xml_legacy (d : Dict) (w : World) :
    List SaveFx × Except String Unit :=
  match convert_to_ksef_xml "2" d w with
  | .error k => ([], .error ("KeyError: " ++ k))
  | .ok _ => ([.fileWrite], .ok ())

/-- C5 (counterexample): the `save_ksef_xml` of `ksef_xml_converter.py`
writes the file for a fully populated invoice without ever calling
validation, although the caller did not disable anything — refuting "for
every invoice, the save operation calls validate before writing". -/
theorem C5_counterexample :
    save_ksef_xml_legacy
      [("seller_tax_no", "1234567890"), ("seller_name", "A"),
       ("seller_street", "ul. X 1"), ("buyer_tax_no", "9876543210"),
       ("buyer_name", "B"), ("buyer_street", "ul. Y 2"),
       ("buyer_post_code", "00-001"), ("buyer_city", "Warszawa"),
       ("currency", "PLN"), ("issue_date", "2025-04-02"),
       ("number", "1/4/2025"), ("price_net", "100.00"),
       ("price_tax", "23.00"), ("price_gross", "123.00")]
      ⟨"2025-04-02T10:00:00", "cid", []⟩ =
      ([SaveFx.fileWrite], Except.ok ()) ∧
    SaveFx.validateCall ∉ [SaveFx.fileWrite] := by
  constructor
  · rfl
  · decide

/-- C5 (amended): in `invoice_pdf_to_ksef_xml.py`, `save_ksef_xml` with
validation enabled (the default) validates first — a failing verdict
aborts the whole operation with no file write, and any performed write is
preceded by a validation call — while the duplicate `save_ksef_xml` in
`ksef_xml_converter.py` writes without ever calling validation. -/
theorem C5_save_validation_gating :
    (∀ (v : String) (d : Dict) (w : World) (err : String),
      (save_ksef_xml v d w (false, err) true).2.isOk = false ∧
      SaveFx.fileWrite ∉ (save_ksef_xml v d w (false, err) true).1) ∧
    (∀ (v : String) (d : Dict) (w : World) (verdict : Bool × String),
      SaveFx.fileWrite ∈ (save_ksef_xml v d w verdict true).1 →
      SaveFx.validateCall ∈ (save_ksef_xml v d w verdict true).1) ∧
    (∀ (d : Dict) (w : World),
      SaveFx.validateCall ∉ (save_ksef_xml_legacy d w).1) := by
  refine ⟨?_, ?_, ?_⟩
  · intro v d w err
    unfold save_ksef_xml
    rcases convert_to_ksef_xml v d w with k | xml <;>
      simp [Except.isOk, Except.toBool]
  · intro v d w verdict
    unfold save_ksef_xml
    rcases convert_to_ksef_xml v d w with k | xml
    · simp
    · rcases verdict with ⟨_ | _, err⟩ <;> simp
  · intro d w
    unfold save_ksef_xml_legacy
    rcases convert_to_ksef_xml "2" d w with k | xml <;> simp

/-- C5 witness: with a failing verdict the PDF-module save performs no
write; the legacy-module save never validates. -/
theorem C5_save_validation_gating_witness :
    ((save_ksef_xml "2" [] ⟨"t", "c", []⟩ (false, "boom") true).2.isOk =
        false ∧
      SaveFx.fileWrite ∉
        (save_ksef_xml "2" [] ⟨"t", "c", []⟩ (false, "boom") true).1) ∧
    SaveFx.validateCall ∉ (save_ksef_xml_legacy [] ⟨"t", "c", []⟩).1 :=
  ⟨C5_save_validation_gating.1 "2" [] ⟨"t", "c", []⟩ "boom",
   C5_save_validation_gating.2.2 [] ⟨"t", "c", []⟩⟩

/-! ## The conversion orchestrator
(`KSeFXMLConverter.convert_pdf_to_ksef_xml`, lines 620-762) -/

/-- The extraction tiers that can be invoked. -/
inductive ParseTier where
  | rules
  | ai
deriving DecidableEq, Repr

/-- Failure modes of the conversion pipeline. -/
inductive ConvError where
  /-- the `ValueError` of lines 676-684: the rule cascade failed (or was
  skipped) and no AI client is configured. -/
  | extractionFailed
  /-- a re-raised exception from the AI call (lines 691-701). -/
  | aiFailed (msg : String)
  /-- a re-raised `KeyError` from the encoder (lines 712-724). -/
  | encodeFailed (key : String)
  /-- the `ValueError` of line 734: XSD validation of the output failed. -/
  | validationFailed (msg : String)
deriving DecidableEq, Repr

/-- The parsing phase of `convert_pdf_to_ksef_xml` (lines 659-701): try
the rule cascade unless `forceAI` is set; on success the AI tier is never
touched; otherwise fall back to the AI client, with its configured presence
and outcome as parameters and its call recorded as an invoked tier;
with no client configured the conversion fails outright, the partial rule
output discarded. -/
def convertParse (t : String) (forceAI : Bool)
    (client : Option (Except String Dict)) :
    List ParseTier × Except ConvError Dict :=
  let viaAI (tr : List ParseTier) : List ParseTier × Except ConvError Dict :=
    match client with
    | none => (tr, .error .extractionFailed)
    | some (.ok d) => (tr ++ [.ai], .ok d)
    | some (.error e) => (tr ++ [.ai], .error (.aiFailed e))
  if forceAI then viaAI []
  else
    match parse_invoice_with_rules t with
    | (d, true) => ([.rules], .ok d)
    | (_, false) => viaAI [.rules]

/-- The remainder of `convert_pdf_to_ksef_xml` (lines 712-762): encode the
parsed record and validate the XML, failing on either; the XSD verdict is
again a parameter. -/
def convert_pdf_to_ksef_xml (t : String) (forceAI : Bool)
    (client : Option (Except String Dict)) (v : String) (w : World)
    (xsdVerdict : Bool × String) :
    List ParseTier × Except ConvError String :=
  match convertParse t forceAI client with
  | (tr, .error e) => (tr, .error e)
  | (tr, .ok d) =>
    match convert_to_ksef_xml v d w with
    | .error k => (tr, .error (.encodeFailed k))
    | .ok xml =>
        if xsdVerdict.1 then (tr, .ok xml)
        else (tr, .error (.validationFailed xsdVerdict.2))

/-- C4: the conversion never invokes the AI tier when the rule cascade
succeeds (and is not forced); it invokes it whenever the cascade fails —
or the caller forces it — and a client is configured; and when the
fallback is needed but no client is configured, the whole conversion
fails with the extraction-failure error, carrying no partial rule
output. -/
theorem C4_fallback_gating :
    (∀ (t : String) (client : Option (Except String Dict)) (v : String)
        (w : World) (verdict : Bool × String),
      (parse_invoice_with_rules t).2 = true →
      (convert_pdf_to_ksef_xml t false client v w verdict).1 =
        [ParseTier.rules]) ∧
    (∀ (t : String) (r : Except String Dict) (v : String) (w : World)
        (verdict : Bool × String),
      (parse_invoice_with_rules t).2 = false →
      (convert_pdf_to_ksef_xml t false (some r) v w verdict).1 =
        [ParseTier.rules, ParseTier.ai]) ∧
    (∀ (t : String) (r : Except String Dict) (v : String) (w : World)
        (verdict : Bool × String),
      ParseTier.ai ∈ (convert_pdf_to_ksef_xml t true (some r) v w verdict).1) ∧
    (∀ (t : String) (v : String) (w : World) (verdict : Bool × String),
      (parse_invoice_with_rules t).2 = false →
      convert_pdf_to_ksef_xml t false none v w verdict =
        ([ParseTier.rules], .error ConvError.extractionFailed)) ∧
    (∀ (t : String) (v : String) (w : World) (verdict : Bool × String),
      convert_pdf_to_ksef_xml t true none v w verdict =
        ([], .error ConvError.extractionFailed)) := by
  refine ⟨?_, ?_, ?_, ?_, ?_⟩
  · intro t client v w verdict h
    unfold convert_pdf_to_ksef_xml convertParse
    rcases hp : parse_invoice_with_rules t with ⟨d, _ | _⟩
    · rw [hp] at h; exact absurd h (by simp)
    · simp only [if_neg (by simp : ¬(false = true))]
      rcases convert_to_ksef_xml v d w with k | xml
      · simp
      · rcases hv : verdict.1 with _ | _ <;> simp [hv]
  · intro t r v w verdict h
    unfold convert_pdf_to_ksef_xml convertParse
    rcases hp : parse_invoice_with_rules t with ⟨d, _ | _⟩
    · simp only [if_neg (by simp : ¬(false = true))]
      rcases r with e | d'
      · simp
      · rcases hc : convert_to_ksef_xml v d' w with k | xml
        · simp [hc]
        · rcases hv : verdict.1 with _ | _ <;> simp [hc, hv]
    · rw [hp] at h; exact absurd h (by simp)
  · intro t r v w verdict
    unfold convert_pdf_to_ksef_xml convertParse
    simp only [if_pos rfl]
    rcases r with e | d'
    · simp
    · rcases hc : convert_to_ksef_xml v d' w with k | xml
      · simp [hc]
      · rcases hv : verdict.1 with _ | _ <;> simp [hc, hv]
  · intro t v w verdict h
    unfold convert_pdf_to_ksef_xml convertParse
    rcases hp : parse_invoice_with_rules t with ⟨d, _ | _⟩
    · simp
    · rw [hp] at h; exact absurd h (by simp)
  · intro t v w verdict
    rfl

/-- C4 witness: on the empty text the cascade fails, so with no client the
conversion fails with the extraction error; with a client, the AI tier is
invoked after the rules tier. -/
theorem C4_fallback_gating_witness :
    convert_pdf_to_ksef_xml "" false none "2" ⟨"t", "c", []⟩ (true, "") =
      ([ParseTier.rules], .error ConvError.extractionFailed) ∧
    (convert_pdf_to_ksef_xml "" false (some (.error "down")) "2"
      ⟨"t", "c", []⟩ (true, "")).1 = [ParseTier.rules, ParseTier.ai] :=
  ⟨C4_fallback_gating.2.2.2.1 "" "2" ⟨"t", "c", []⟩ (true, "") (by decide),
   C4_fallback_gating.2.1 "" (.error "down") "2" ⟨"t", "c", []⟩ (true, "")
     (by decide)⟩

end Ksef
